import Mathlib

/-!
# External scanner of the Quarto grammar

A shallow embedding of `grammars/quarto/src/scanner.c` and a verification of
its checkpoint codec, its three token recognizers and its dispatcher.

Conventions of the embedding:

* code points and bytes are natural numbers; a byte is its bit pattern `0..255`;
* `uint32_t` arithmetic is arithmetic on `Nat` reduced modulo `2 ^ 32` wherever
  the source can overflow (the backtick counter);
* the `Scanner` record behind the `payload` pointer is passed in and returned;
* the host cursor `TSLexer` is a record that is passed in and returned;
* every `while` loop of the source is a function recursing on a fuel argument,
  started with the number of code points still unread, which is always enough
  because every loop of the source stops at the end of the input.
-/

namespace Quarto

/-! ## Data model -/

/-- Token kinds, `enum TokenType` of the source. -/
inductive TokenType where
  | PIPE_TABLE_START
  | CHUNK_OPTION_MARKER
  | CELL_BOUNDARY
deriving DecidableEq, Repr

/-- Scanner state, the `Scanner` struct of the source; `fence_length` is a
`uint32_t`. -/
structure Scanner where
  in_executable_cell : Bool
  at_cell_start : Bool
  fence_length : Nat
deriving DecidableEq, Repr

/-- Modelled from the spec: the Lookahead Cursor (section 4.1), the `TSLexer` of the
host, declared in `tree_sitter/parser.h`, which is not part of the sources.
`input` holds the code points not yet consumed, `pos` counts the code points
consumed so far, `skipped` counts those of them flagged as insignificant
whitespace, `marked` is the position of the last committed token boundary and
`result_symbol` the token kind reported to the host. -/
structure TSLexer where
  input : List Nat
  pos : Nat
  skipped : Nat
  marked : Option Nat
  result_symbol : Option TokenType
deriving DecidableEq, Repr

/-- A character buffer (`char *`): the byte stored at each index. -/
abbrev Buffer := Nat → Nat

/-- The candidate set handed over by the host (`const bool *valid_symbols`). -/
abbrev ValidSymbols := TokenType → Bool

/-! ## The cursor -/

/-- First code point of a text, `0` for the empty text. -/
def peek : List Nat → Nat
  | [] => 0
  | c :: _ => c

/-- Modelled from the spec: `lexer->lookahead`, the next code point, or the
end-of-input marker `0` once the input is exhausted. -/
def lookahead (lexer : TSLexer) : Nat := peek lexer.input

/-- Modelled from the spec: `lexer->advance(lexer, skip)` consumes one code
point, flagging it as insignificant whitespace when `skip` is set; at the end
of the input there is nothing to consume. -/
def advance (lexer : TSLexer) (skip : Bool) : TSLexer :=
  match lexer.input with
  | [] => lexer
  | _ :: rest =>
    { lexer with
      input := rest
      pos := lexer.pos + 1
      skipped := if skip then lexer.skipped + 1 else lexer.skipped }

/-- Modelled from the spec: `lexer->mark_end(lexer)` commits the token boundary
at the current position. -/
def mark_end (lexer : TSLexer) : TSLexer :=
  { lexer with marked := some lexer.pos }

/-- A cursor at the start of the text `input`. -/
def lexerOn (input : List Nat) : TSLexer :=
  { input := input, pos := 0, skipped := 0, marked := none, result_symbol := none }

/-! ## Scanner life cycle and checkpoint codec -/

/-- The zero state returned by `tree_sitter_quarto_external_scanner_create`. -/
def tree_sitter_quarto_external_scanner_create : Scanner :=
  { in_executable_cell := false, at_cell_start := false, fence_length := 0 }

/-- Store of one byte, `buffer[i] = v`. -/
def Buffer.write (buffer : Buffer) (i v : Nat) : Buffer :=
  fun j => if j = i then v else buffer j

/-- The source's `tree_sitter_quarto_external_scanner_serialize`: the buffer
after the four stores, and the returned length. -/
def tree_sitter_quarto_external_scanner_serialize (scanner : Scanner) (buffer : Buffer) :
    Buffer × Nat :=
  let buffer := buffer.write 0 (if scanner.in_executable_cell then 1 else 0)
  let buffer := buffer.write 1 (if scanner.at_cell_start then 1 else 0)
  let buffer := buffer.write 2 (scanner.fence_length &&& 0xFF)
  let buffer := buffer.write 3 ((scanner.fence_length >>> 8) &&& 0xFF)
  (buffer, 4)

/-- The source's `tree_sitter_quarto_external_scanner_deserialize`. -/
def tree_sitter_quarto_external_scanner_deserialize (_scanner : Scanner) (buffer : Buffer)
    (length : Nat) : Scanner :=
  if length ≥ 4 then
    { in_executable_cell := buffer 0 != 0
      at_cell_start := buffer 1 != 0
      fence_length := (buffer 2 &&& 0xFF) ||| ((buffer 3 &&& 0xFF) <<< 8) }
  else
    { in_executable_cell := false, at_cell_start := false, fence_length := 0 }

/-! ## Recognizers -/

/-- The loop of `skip_whitespace`. -/
def skip_whitespace_loop : Nat → TSLexer → TSLexer
  | 0, lexer => lexer
  | fuel + 1, lexer =>
    if lookahead lexer = 32 ∨ lookahead lexer = 9 then
      skip_whitespace_loop fuel (advance lexer true)
    else lexer

/-- The source's `skip_whitespace`: skips spaces (32) and tabs (9). -/
def skip_whitespace (lexer : TSLexer) : TSLexer :=
  skip_whitespace_loop lexer.input.length lexer

/-- First loop of `scan_pipe_table_start`: skip to the end of the current line
(both branches of the source's inner `if` advance alike). -/
def skip_line_loop : Nat → TSLexer → TSLexer
  | 0, lexer => lexer
  | fuel + 1, lexer =>
    if lookahead lexer ≠ 10 ∧ lookahead lexer ≠ 13 ∧ lookahead lexer ≠ 0 then
      if lookahead lexer = 124 then
        skip_line_loop fuel (advance lexer false)
      else
        skip_line_loop fuel (advance lexer false)
    else lexer

/-- Second loop of `scan_pipe_table_start`: the run of dashes (45), with the
flag `has_dash`. -/
def dash_loop : Nat → Bool → TSLexer → Bool × TSLexer
  | 0, has_dash, lexer => (has_dash, lexer)
  | fuel + 1, has_dash, lexer =>
    if lookahead lexer = 45 then
      dash_loop fuel true (advance lexer false)
    else (has_dash, lexer)

/-- The source's `scan_pipe_table_start`. -/
def scan_pipe_table_start (lexer : TSLexer) : Bool × TSLexer :=
  let lexer := skip_line_loop lexer.input.length lexer
  let lexer := if lookahead lexer = 13 then advance lexer false else lexer
  let lexer := if lookahead lexer = 10 then advance lexer false else lexer
  let lexer := skip_whitespace lexer
  if lookahead lexer ≠ 124 then
    (false, lexer)
  else
    let lexer := advance lexer false
    let lexer := skip_whitespace lexer
    let lexer := if lookahead lexer = 58 then advance lexer false else lexer
    let (has_dash, lexer) := dash_loop lexer.input.length false lexer
    let lexer := if lookahead lexer = 58 then advance lexer false else lexer
    (has_dash, lexer)

/-- The source's `scan_chunk_option_marker`: `#` (35) then `|` (124), only inside
a cell and at its start. -/
def scan_chunk_option_marker (scanner : Scanner) (lexer : TSLexer) :
    Bool × Scanner × TSLexer :=
  if !scanner.in_executable_cell || !scanner.at_cell_start then
    (false, scanner, lexer)
  else if lookahead lexer = 35 then
    let lexer := advance lexer false
    if lookahead lexer = 124 then
      let lexer := advance lexer false
      let lexer := skip_whitespace lexer
      let lexer := mark_end lexer
      (true, scanner, lexer)
    else
      (false, scanner, lexer)
  else
    (false, scanner, lexer)

/-- The loop of `scan_cell_boundary` counting backticks (96) in the `uint32_t`
counter `fence_len`. -/
def count_backticks : Nat → Nat → TSLexer → Nat × TSLexer
  | 0, fence_len, lexer => (fence_len, lexer)
  | fuel + 1, fence_len, lexer =>
    if lookahead lexer = 96 then
      count_backticks fuel ((fence_len + 1) % 2 ^ 32) (advance lexer false)
    else (fence_len, lexer)

/-- The source's `scan_cell_boundary`: an opening fence is a run of at least
three backticks before `{` (123), a closing fence one before the end of the
line. -/
def scan_cell_boundary (scanner : Scanner) (lexer : TSLexer) : Bool × Scanner × TSLexer :=
  let (fence_len, lexer) := count_backticks lexer.input.length 0 lexer
  if fence_len < 3 then
    (false, scanner, lexer)
  else
    let lexer := skip_whitespace lexer
    if lookahead lexer = 123 then
      (true,
        { in_executable_cell := true, at_cell_start := true, fence_length := fence_len },
        mark_end lexer)
    else
      let lexer := skip_whitespace lexer
      if lookahead lexer = 10 ∨ lookahead lexer = 13 ∨ lookahead lexer = 0 then
        if scanner.in_executable_cell && fence_len ≥ scanner.fence_length then
          (true,
            { in_executable_cell := false, at_cell_start := false, fence_length := 0 },
            mark_end lexer)
        else
          (false, scanner, lexer)
      else
        (false, scanner, lexer)

/-! ## Dispatcher

The dispatcher of the source is a sequence of three blocks, one per token kind,
each of which may return early. It is embedded block by block, last block
first: each block either returns or goes on with the blocks after it. -/

/-- Last block of the dispatcher, `if (valid_symbols[CELL_BOUNDARY]) { ... }`,
and the final `return false`. -/
def scan_boundary_stage (scanner : Scanner) (lexer : TSLexer)
    (valid_symbols : ValidSymbols) : Bool × Scanner × TSLexer :=
  if valid_symbols TokenType.CELL_BOUNDARY then
    let r := scan_cell_boundary scanner lexer
    if r.1 then
      (true, r.2.1, { r.2.2 with result_symbol := some TokenType.CELL_BOUNDARY })
    else
      (false, r.2.1, r.2.2)
  else
    (false, scanner, lexer)

/-- Second block of the dispatcher, `if (valid_symbols[CHUNK_OPTION_MARKER]) { ... }`:
a marker is reported, or `at_cell_start` is cleared and the last block runs. -/
def scan_marker_stage (scanner : Scanner) (lexer : TSLexer)
    (valid_symbols : ValidSymbols) : Bool × Scanner × TSLexer :=
  if valid_symbols TokenType.CHUNK_OPTION_MARKER then
    let r := scan_chunk_option_marker scanner lexer
    if r.1 then
      (true, r.2.1, { r.2.2 with result_symbol := some TokenType.CHUNK_OPTION_MARKER })
    else
      scan_boundary_stage { r.2.1 with at_cell_start := false } r.2.2 valid_symbols
  else
    scan_boundary_stage scanner lexer valid_symbols

/-- First block of the dispatcher, `if (valid_symbols[PIPE_TABLE_START]) { ... }`:
a table start is reported, or the later blocks run on the cursor as the failed
attempt left it. -/
def scan_table_stage (scanner : Scanner) (lexer : TSLexer)
    (valid_symbols : ValidSymbols) : Bool × Scanner × TSLexer :=
  if valid_symbols TokenType.PIPE_TABLE_START then
    let r := scan_pipe_table_start lexer
    if r.1 then
      (true, scanner, { r.2 with result_symbol := some TokenType.PIPE_TABLE_START })
    else
      scan_marker_stage scanner r.2 valid_symbols
  else
    scan_marker_stage scanner lexer valid_symbols

/-- The source's `tree_sitter_quarto_external_scanner_scan`: the success flag, the
scanner state after the call and the cursor after the call. Leading whitespace
is skipped unless `CHUNK_OPTION_MARKER` is a candidate, then the three blocks
run. -/
def tree_sitter_quarto_external_scanner_scan (scanner : Scanner) (lexer : TSLexer)
    (valid_symbols : ValidSymbols) : Bool × Scanner × TSLexer :=
  let lexer :=
    if valid_symbols TokenType.CHUNK_OPTION_MARKER then lexer else skip_whitespace lexer
  scan_table_stage scanner lexer valid_symbols

/-- The text of a string as code points. -/
def codePoints (s : String) : List Nat := s.toList.map Char.toNat

/-- Candidate set given by its three flags. -/
def validSet (table marker boundary : Bool) : ValidSymbols
  | TokenType.PIPE_TABLE_START => table
  | TokenType.CHUNK_OPTION_MARKER => marker
  | TokenType.CELL_BOUNDARY => boundary

/-- Scanner states the host can observe: the zero state, and every state left
behind by a dispatcher call made in an observable state. -/
inductive Reachable : Scanner → Prop where
  | create : Reachable tree_sitter_quarto_external_scanner_create
  | scan (scanner : Scanner) (lexer : TSLexer) (valid_symbols : ValidSymbols) :
      Reachable scanner →
      Reachable (tree_sitter_quarto_external_scanner_scan scanner lexer valid_symbols).2.1

/-! ## The dispatcher in the words of the specification -/

/-- One attempt of the recognizer of a token kind, in the words of the
specification (section 4.5): the pipe-table recognizer does not touch the state,
a marker attempt that fails to match forces `at_cell_start` false, the
cell-boundary recognizer updates the state itself. -/
def spec_attempt (kind : TokenType) (scanner : Scanner) (lexer : TSLexer) :
    Bool × Scanner × TSLexer :=
  match kind with
  | TokenType.PIPE_TABLE_START =>
    ((scan_pipe_table_start lexer).1, scanner, (scan_pipe_table_start lexer).2)
  | TokenType.CHUNK_OPTION_MARKER =>
    if (scan_chunk_option_marker scanner lexer).1 then
      scan_chunk_option_marker scanner lexer
    else
      (false, { (scan_chunk_option_marker scanner lexer).2.1 with at_cell_start := false },
        (scan_chunk_option_marker scanner lexer).2.2)
  | TokenType.CELL_BOUNDARY => scan_cell_boundary scanner lexer

/-- State and cursor after the block of a token kind that has not reported a
token: those left by the failed attempt if the kind is a candidate, and those
before it if it is not, no attempt being made. -/
def spec_after (kind : TokenType) (valid_symbols : ValidSymbols) (scanner : Scanner)
    (lexer : TSLexer) : Scanner × TSLexer :=
  if valid_symbols kind then
    ((spec_attempt kind scanner lexer).2.1, (spec_attempt kind scanner lexer).2.2)
  else (scanner, lexer)

/-- The attempt list of the specification (section 4.5): the kinds are tried in the
order of the list, those that are no candidates are passed over, the first
success wins and is reported, and failure is reported when the list is
exhausted. -/
def spec_first_success :
    List TokenType → ValidSymbols → Scanner → TSLexer → Bool × Scanner × TSLexer
  | [], _, scanner, lexer => (false, scanner, lexer)
  | kind :: kinds, valid_symbols, scanner, lexer =>
    if valid_symbols kind then
      if (spec_attempt kind scanner lexer).1 then
        (true, (spec_attempt kind scanner lexer).2.1,
          { (spec_attempt kind scanner lexer).2.2 with result_symbol := some kind })
      else
        spec_first_success kinds valid_symbols (spec_attempt kind scanner lexer).2.1
          (spec_attempt kind scanner lexer).2.2
    else
      spec_first_success kinds valid_symbols scanner lexer

/-- The dispatcher of the specification (section 4.5): leading whitespace is skipped
if `CHUNK_OPTION_MARKER` is not a candidate, then the kinds are tried in the
fixed order table, marker, boundary. -/
def spec_dispatch (scanner : Scanner) (lexer : TSLexer) (valid_symbols : ValidSymbols) :
    Bool × Scanner × TSLexer :=
  spec_first_success
    [TokenType.PIPE_TABLE_START, TokenType.CHUNK_OPTION_MARKER, TokenType.CELL_BOUNDARY]
    valid_symbols scanner
    (if valid_symbols TokenType.CHUNK_OPTION_MARKER then lexer else skip_whitespace lexer)

/-! ## Progress of the cursor -/

/-- The cursor `after` has been reached from the cursor `before` by consuming
code points of its unread text, at most all of them: the position has grown by
the number of code points consumed, and what is unread is what was unread,
less the code points consumed. -/
def Advanced (before after : TSLexer) : Prop :=
  before.pos ≤ after.pos ∧ after.pos - before.pos ≤ before.input.length ∧
    after.input = before.input.drop (after.pos - before.pos)

instance (before after : TSLexer) : Decidable (Advanced before after) :=
  inferInstanceAs (Decidable (_ ∧ _ ∧ _))

/-! ## The pipe-table recognizer in the words of the specification -/

/-- Text left when an optional code point `c` at its start is consumed. -/
def dropOptional (c : Nat) : List Nat → List Nat
  | [] => []
  | d :: rest => if d = c then rest else d :: rest

/-- The token kind a call has reported to the host: the kind in `result_symbol`
if the call has succeeded, none if it has failed. -/
def reported (result : Bool × Scanner × TSLexer) : Option TokenType :=
  if result.1 then result.2.2.result_symbol else none

/-- Two results agree for the host: same success flag, same scanner state, same
reported kind, and cursors with the same unread text. -/
def SameOutcome (r1 r2 : Bool × Scanner × TSLexer) : Prop :=
  r1.1 = r2.1 ∧ r1.2.1 = r2.2.1 ∧ reported r1 = reported r2 ∧ r1.2.2.input = r2.2.2.input

instance (r1 r2 : Bool × Scanner × TSLexer) : Decidable (SameOutcome r1 r2) :=
  inferInstanceAs (Decidable (_ ∧ _ ∧ _ ∧ _))

/-- The text as the cursor shows it: the code points in front of the first
end-of-input marker 0, which is all of a text that holds no code point 0. -/
def textSeen (input : List Nat) : List Nat :=
  input.takeWhile (fun c => c ≠ 0)

/-! ## Arithmetic of the codec -/

theorem land_0xFF (x : Nat) : x &&& 0xFF = x % 256 :=
  Nat.and_pow_two_sub_one_eq_mod x 8

theorem shiftRight_8 (x : Nat) : x >>> 8 = x / 256 :=
  Nat.shiftRight_eq_div_pow x 8

theorem lor_shiftLeft_8 (a b : Nat) (ha : a < 256) : a ||| (b <<< 8) = a + 256 * b := by
  have h := Nat.mul_add_lt_is_or (i := 8) (b := a) (by simpa using ha) b
  rw [Nat.shiftLeft_eq, Nat.or_comm, Nat.mul_comm b, ← h]
  norm_num
  omega

/-- The fence length read back from bytes 2 and 3. -/
theorem decode_fence (b2 b3 : Nat) :
    (b2 &&& 0xFF) ||| ((b3 &&& 0xFF) <<< 8) = b2 % 256 + 256 * (b3 % 256) := by
  rw [land_0xFF, land_0xFF, lor_shiftLeft_8 _ _ (Nat.mod_lt _ (by norm_num))]

/-- What the composite decode-after-encode does to a state: the flags come back,
the fence length comes back modulo `2 ^ 16`. -/
theorem deserialize_serialize (prior scanner : Scanner) (buffer : Buffer) :
    tree_sitter_quarto_external_scanner_deserialize prior
        (tree_sitter_quarto_external_scanner_serialize scanner buffer).1
        (tree_sitter_quarto_external_scanner_serialize scanner buffer).2
      = { scanner with fence_length := scanner.fence_length % 65536 } := by
  obtain ⟨a, b, n⟩ := scanner
  have h : ((n &&& 0xFF) &&& 0xFF) ||| ((((n >>> 8) &&& 0xFF) &&& 0xFF) <<< 8)
      = n % 65536 := by
    rw [decode_fence, land_0xFF, land_0xFF, shiftRight_8]
    omega
  cases a <;> cases b <;>
    simp [tree_sitter_quarto_external_scanner_deserialize,
      tree_sitter_quarto_external_scanner_serialize, Buffer.write, h]

/-! ## The fuel of the loops is enough

Each loop is started with as much fuel as there are code points left. The
lemmas of this section show that this is no truncation: with that much fuel a
loop ends because its condition fails, as the `while` of the source does, and
more fuel changes nothing. -/

theorem advance_input_length (lexer : TSLexer) (skip : Bool) :
    (advance lexer skip).input.length = lexer.input.length - 1 := by
  obtain ⟨input, pos, skipped, marked, sym⟩ := lexer
  cases input <;> rfl

theorem lookahead_at_end (lexer : TSLexer) (h : lexer.input.length = 0) :
    lookahead lexer = 0 := by
  obtain ⟨input, pos, skipped, marked, sym⟩ := lexer
  cases input with
  | nil => rfl
  | cons c rest => simp at h

/-- The whitespace loop ends in front of a code point that is no space or tab. -/
theorem skip_whitespace_loop_exit (fuel : Nat) :
    ∀ lexer : TSLexer, lexer.input.length ≤ fuel →
      ¬ (lookahead (skip_whitespace_loop fuel lexer) = 32 ∨
          lookahead (skip_whitespace_loop fuel lexer) = 9) := by
  induction fuel with
  | zero =>
    intro lexer h
    simp [skip_whitespace_loop, lookahead_at_end lexer (Nat.le_zero.mp h)]
  | succ fuel ih =>
    intro lexer h
    simp only [skip_whitespace_loop]
    split
    · exact ih _ (by rw [advance_input_length]; omega)
    · assumption

/-- More fuel than code points left does not change the whitespace loop. -/
theorem skip_whitespace_loop_fuel (fuel : Nat) :
    ∀ lexer : TSLexer, lexer.input.length ≤ fuel →
      skip_whitespace_loop fuel lexer = skip_whitespace lexer := by
  induction fuel with
  | zero =>
    intro lexer h
    simp only [skip_whitespace, Nat.le_zero.mp h]
  | succ fuel ih =>
    intro lexer h
    obtain ⟨input, pos, skipped, marked, sym⟩ := lexer
    cases input with
    | nil => simp [skip_whitespace, skip_whitespace_loop, lookahead, peek]
    | cons c rest =>
      simp only [skip_whitespace, skip_whitespace_loop, List.length_cons]
      split
      · rw [ih _ (by rw [advance_input_length]; simpa using h)]
        rfl
      · rfl

/-- The line loop ends in front of a line terminator or at the end of the input. -/
theorem skip_line_loop_exit (fuel : Nat) :
    ∀ lexer : TSLexer, lexer.input.length ≤ fuel →
      ¬ (lookahead (skip_line_loop fuel lexer) ≠ 10 ∧
          lookahead (skip_line_loop fuel lexer) ≠ 13 ∧
          lookahead (skip_line_loop fuel lexer) ≠ 0) := by
  induction fuel with
  | zero =>
    intro lexer h
    simp [skip_line_loop, lookahead_at_end lexer (Nat.le_zero.mp h)]
  | succ fuel ih =>
    intro lexer h
    simp only [skip_line_loop, ite_self]
    split
    · exact ih _ (by rw [advance_input_length]; omega)
    · assumption

/-- More fuel than code points left does not change the line loop. -/
theorem skip_line_loop_fuel (fuel : Nat) :
    ∀ lexer : TSLexer, lexer.input.length ≤ fuel →
      skip_line_loop fuel lexer = skip_line_loop lexer.input.length lexer := by
  induction fuel with
  | zero =>
    intro lexer h
    rw [Nat.le_zero.mp h]
  | succ fuel ih =>
    intro lexer h
    obtain ⟨input, pos, skipped, marked, sym⟩ := lexer
    cases input with
    | nil => simp [skip_line_loop, lookahead, peek]
    | cons c rest =>
      simp only [skip_line_loop, List.length_cons, ite_self]
      split
      · rw [ih _ (by rw [advance_input_length]; simpa using h)]
        rfl
      · rfl

/-- The dash loop ends in front of a code point that is no dash. -/
theorem dash_loop_exit (fuel : Nat) :
    ∀ (has_dash : Bool) (lexer : TSLexer), lexer.input.length ≤ fuel →
      lookahead (dash_loop fuel has_dash lexer).2 ≠ 45 := by
  induction fuel with
  | zero =>
    intro has_dash lexer h
    simp [dash_loop, lookahead_at_end lexer (Nat.le_zero.mp h)]
  | succ fuel ih =>
    intro has_dash lexer h
    simp only [dash_loop]
    split
    · exact ih _ _ (by rw [advance_input_length]; omega)
    · assumption

/-- More fuel than code points left does not change the dash loop. -/
theorem dash_loop_fuel (fuel : Nat) :
    ∀ (has_dash : Bool) (lexer : TSLexer), lexer.input.length ≤ fuel →
      dash_loop fuel has_dash lexer = dash_loop lexer.input.length has_dash lexer := by
  induction fuel with
  | zero =>
    intro has_dash lexer h
    rw [Nat.le_zero.mp h]
  | succ fuel ih =>
    intro has_dash lexer h
    obtain ⟨input, pos, skipped, marked, sym⟩ := lexer
    cases input with
    | nil => simp [dash_loop, lookahead, peek]
    | cons c rest =>
      simp only [dash_loop, List.length_cons]
      split
      · rw [ih _ _ (by rw [advance_input_length]; simpa using h)]
        rfl
      · rfl

/-- The counting loop ends in front of a code point that is no backtick. -/
theorem count_backticks_exit (fuel : Nat) :
    ∀ (fence_len : Nat) (lexer : TSLexer), lexer.input.length ≤ fuel →
      lookahead (count_backticks fuel fence_len lexer).2 ≠ 96 := by
  induction fuel with
  | zero =>
    intro fence_len lexer h
    simp [count_backticks, lookahead_at_end lexer (Nat.le_zero.mp h)]
  | succ fuel ih =>
    intro fence_len lexer h
    simp only [count_backticks]
    split
    · exact ih _ _ (by rw [advance_input_length]; omega)
    · assumption

/-- More fuel than code points left does not change the counting loop. -/
theorem count_backticks_fuel (fuel : Nat) :
    ∀ (fence_len : Nat) (lexer : TSLexer), lexer.input.length ≤ fuel →
      count_backticks fuel fence_len lexer
        = count_backticks lexer.input.length fence_len lexer := by
  induction fuel with
  | zero =>
    intro fence_len lexer h
    rw [Nat.le_zero.mp h]
  | succ fuel ih =>
    intro fence_len lexer h
    obtain ⟨input, pos, skipped, marked, sym⟩ := lexer
    cases input with
    | nil => simp [count_backticks, lookahead, peek]
    | cons c rest =>
      simp only [count_backticks, List.length_cons]
      split
      · rw [ih _ _ (by rw [advance_input_length]; simpa using h)]
        rfl
      · rfl

/-! ## The loops on inputs of a known shape -/

@[simp] theorem peek_nil : peek [] = 0 := rfl

@[simp] theorem peek_cons (c : Nat) (rest : List Nat) : peek (c :: rest) = c := rfl

@[simp] theorem lookahead_mk (input : List Nat) (pos skipped : Nat) (marked : Option Nat)
    (sym : Option TokenType) : lookahead ⟨input, pos, skipped, marked, sym⟩ = peek input := rfl

@[simp] theorem advance_cons (c : Nat) (rest : List Nat) (pos skipped : Nat)
    (marked : Option Nat) (sym : Option TokenType) (skip : Bool) :
    advance ⟨c :: rest, pos, skipped, marked, sym⟩ skip
      = ⟨rest, pos + 1, if skip then skipped + 1 else skipped, marked, sym⟩ := rfl

/-- The whitespace loop consumes a run of spaces and tabs that ends before a code
point that is neither, given fuel for the run. -/
theorem skip_whitespace_loop_run (ws rest : List Nat) (hws : ∀ c ∈ ws, c = 32 ∨ c = 9)
    (h32 : peek rest ≠ 32) (h9 : peek rest ≠ 9) :
    ∀ (fuel pos skipped : Nat) (marked : Option Nat) (sym : Option TokenType),
      ws.length ≤ fuel →
      skip_whitespace_loop fuel ⟨ws ++ rest, pos, skipped, marked, sym⟩
        = ⟨rest, pos + ws.length, skipped + ws.length, marked, sym⟩ := by
  induction ws with
  | nil =>
    intro fuel pos skipped marked sym _
    cases fuel with
    | zero => simp [skip_whitespace_loop]
    | succ fuel => simp [skip_whitespace_loop, h32, h9]
  | cons c ws ih =>
    intro fuel pos skipped marked sym hfuel
    cases fuel with
    | zero => simp at hfuel
    | succ fuel =>
      have hc : c = 32 ∨ c = 9 := hws c (List.mem_cons_self c ws)
      have ih2 := ih (fun d hd => hws d (List.mem_cons_of_mem c hd)) fuel (pos + 1)
        (skipped + 1) marked sym (by simpa using hfuel)
      simp only [skip_whitespace_loop, List.cons_append, lookahead_mk, peek_cons, hc,
        if_true, advance_cons, List.length_cons]
      rw [ih2]
      simp only [TSLexer.mk.injEq, true_and, and_true]
      omega

/-- The function `skip_whitespace` on a run of spaces and tabs. -/
theorem skip_whitespace_run (ws rest : List Nat) (hws : ∀ c ∈ ws, c = 32 ∨ c = 9)
    (h32 : peek rest ≠ 32) (h9 : peek rest ≠ 9)
    (pos skipped : Nat) (marked : Option Nat) (sym : Option TokenType) :
    skip_whitespace ⟨ws ++ rest, pos, skipped, marked, sym⟩
      = ⟨rest, pos + ws.length, skipped + ws.length, marked, sym⟩ :=
  skip_whitespace_loop_run ws rest hws h32 h9 _ pos skipped marked sym (by simp)

/-- The function `skip_whitespace` in front of a code point that is no space or
tab consumes nothing. -/
theorem skip_whitespace_none (lexer : TSLexer) (h32 : lookahead lexer ≠ 32)
    (h9 : lookahead lexer ≠ 9) : skip_whitespace lexer = lexer := by
  obtain ⟨input, pos, skipped, marked, sym⟩ := lexer
  have h := skip_whitespace_run [] input (by simp) h32 h9 pos skipped marked sym
  simpa using h

/-- The counting loop consumes a run of `n` backticks that ends before another
code point and adds `n` to the 32-bit counter. -/
theorem count_backticks_run (rest : List Nat) (h96 : peek rest ≠ 96) :
    ∀ (n fuel fence_len pos skipped : Nat) (marked : Option Nat) (sym : Option TokenType),
      n ≤ fuel → fence_len < 2 ^ 32 →
      count_backticks fuel fence_len ⟨List.replicate n 96 ++ rest, pos, skipped, marked, sym⟩
        = ((fence_len + n) % 2 ^ 32, ⟨rest, pos + n, skipped, marked, sym⟩) := by
  intro n
  induction n with
  | zero =>
    intro fuel fence_len pos skipped marked sym _ hlt
    have hm : (fence_len + 0) % 2 ^ 32 = fence_len := Nat.mod_eq_of_lt hlt
    rw [hm]
    cases fuel with
    | zero => simp [count_backticks]
    | succ fuel => simp [count_backticks, h96]
  | succ n ih =>
    intro fuel fence_len pos skipped marked sym hfuel hlt
    cases fuel with
    | zero => simp at hfuel
    | succ fuel =>
      have ih2 := ih fuel ((fence_len + 1) % 2 ^ 32) (pos + 1) skipped marked sym
        (by omega) (Nat.mod_lt _ (by norm_num))
      have hm : ((fence_len + 1) % 2 ^ 32 + n) % 2 ^ 32 = (fence_len + (n + 1)) % 2 ^ 32 := by
        omega
      simp only [count_backticks, List.replicate_succ, List.cons_append, lookahead_mk,
        peek_cons, if_true, advance_cons]
      simp only [Bool.false_eq_true, if_false]
      rw [ih2, hm]
      simp only [Prod.mk.injEq, TSLexer.mk.injEq, true_and, and_true]
      omega

/-- The line loop consumes a line up to its terminator or the end of the input. -/
theorem skip_line_loop_run (line rest : List Nat)
    (hline : ∀ c ∈ line, c ≠ 10 ∧ c ≠ 13 ∧ c ≠ 0)
    (hrest : peek rest = 10 ∨ peek rest = 13 ∨ peek rest = 0) :
    ∀ (fuel pos skipped : Nat) (marked : Option Nat) (sym : Option TokenType),
      line.length ≤ fuel →
      skip_line_loop fuel ⟨line ++ rest, pos, skipped, marked, sym⟩
        = ⟨rest, pos + line.length, skipped, marked, sym⟩ := by
  induction line with
  | nil =>
    intro fuel pos skipped marked sym _
    cases fuel with
    | zero => simp [skip_line_loop]
    | succ fuel =>
      have : ¬ (peek rest ≠ 10 ∧ peek rest ≠ 13 ∧ peek rest ≠ 0) := by
        rcases hrest with h | h | h <;> simp [h]
      simp only [skip_line_loop, List.nil_append, lookahead_mk, this, if_false,
        List.length_nil, Nat.add_zero]
  | cons c line ih =>
    intro fuel pos skipped marked sym hfuel
    cases fuel with
    | zero => simp at hfuel
    | succ fuel =>
      have hc := hline c (List.mem_cons_self c line)
      have ih2 := ih (fun d hd => hline d (List.mem_cons_of_mem c hd)) fuel (pos + 1)
        skipped marked sym (by simpa using hfuel)
      simp only [skip_line_loop, List.cons_append, lookahead_mk, peek_cons, hc, ne_eq,
        not_false_eq_true, and_self, if_true, advance_cons, List.length_cons, ite_self]
      simp only [Bool.false_eq_true, if_false]
      rw [ih2]
      simp only [TSLexer.mk.injEq, true_and, and_true]
      omega

/-- Once a dash has been seen the dash loop reports one. -/
theorem dash_loop_true (fuel : Nat) :
    ∀ lexer : TSLexer, (dash_loop fuel true lexer).1 = true := by
  induction fuel with
  | zero => intro lexer; rfl
  | succ fuel ih =>
    intro lexer
    simp only [dash_loop]
    split
    · exact ih _
    · rfl

/-- In front of a run of spaces and tabs the next code point is a space, a tab,
or the code point after the run. -/
theorem peek_append_ws (ws rest : List Nat) (hws : ∀ c ∈ ws, c = 32 ∨ c = 9) :
    peek (ws ++ rest) = 32 ∨ peek (ws ++ rest) = 9 ∨ peek (ws ++ rest) = peek rest := by
  cases ws with
  | nil => simp
  | cons c ws =>
    rcases hws c (List.mem_cons_self c ws) with h | h <;> simp [h]

/-- A non-empty run of backticks starts with a backtick. -/
theorem peek_replicate_append (n c : Nat) (rest : List Nat) (hn : 0 < n) :
    peek (List.replicate n c ++ rest) = c := by
  cases n with
  | zero => omega
  | succ n => simp [List.replicate_succ]

/-- Opening fence: `n` backticks, spaces or tabs, then `{`. The run length is
counted modulo `2 ^ 32`. -/
theorem scan_cell_boundary_open (scanner : Scanner) (n : Nat) (ws rest : List Nat)
    (hn : 3 ≤ n % 2 ^ 32) (hws : ∀ c ∈ ws, c = 32 ∨ c = 9)
    (pos skipped : Nat) (marked : Option Nat) (sym : Option TokenType) :
    scan_cell_boundary scanner
        ⟨List.replicate n 96 ++ (ws ++ 123 :: rest), pos, skipped, marked, sym⟩
      = (true,
          { in_executable_cell := true, at_cell_start := true, fence_length := n % 2 ^ 32 },
          ⟨123 :: rest, pos + n + ws.length, skipped + ws.length,
            some (pos + n + ws.length), sym⟩) := by
  have h96 : peek (ws ++ 123 :: rest) ≠ 96 := by
    rcases peek_append_ws ws (123 :: rest) hws with h | h | h <;> simp [h]
  have hcount := count_backticks_run (ws ++ 123 :: rest) h96 n
    (List.replicate n 96 ++ (ws ++ 123 :: rest)).length 0 pos skipped marked sym
    (by simp) (by norm_num)
  have hskip := skip_whitespace_run ws (123 :: rest) hws (by simp) (by simp) (pos + n)
    skipped marked sym
  simp only [Nat.zero_add] at hcount
  simp only [scan_cell_boundary, hcount, hskip, Nat.not_lt.mpr hn, if_false, lookahead_mk,
    peek_cons, if_true, mark_end]

/-- Closing fence: `n` backticks, spaces or tabs, then a line terminator or the
end of the input. The cell is closed exactly when one is open and the run is
at least as long as the fence that opened it. -/
theorem scan_cell_boundary_close (scanner : Scanner) (n : Nat) (ws rest : List Nat)
    (hn : 3 ≤ n % 2 ^ 32) (hws : ∀ c ∈ ws, c = 32 ∨ c = 9)
    (hrest : peek rest = 10 ∨ peek rest = 13 ∨ peek rest = 0)
    (pos skipped : Nat) (marked : Option Nat) (sym : Option TokenType) :
    scan_cell_boundary scanner
        ⟨List.replicate n 96 ++ (ws ++ rest), pos, skipped, marked, sym⟩
      = if scanner.in_executable_cell && decide (n % 2 ^ 32 ≥ scanner.fence_length) then
          (true,
            { in_executable_cell := false, at_cell_start := false, fence_length := 0 },
            ⟨rest, pos + n + ws.length, skipped + ws.length,
              some (pos + n + ws.length), sym⟩)
        else
          (false, scanner,
            ⟨rest, pos + n + ws.length, skipped + ws.length, marked, sym⟩) := by
  have h32 : peek rest ≠ 32 := by rcases hrest with h | h | h <;> simp [h]
  have h9 : peek rest ≠ 9 := by rcases hrest with h | h | h <;> simp [h]
  have h123 : peek rest ≠ 123 := by rcases hrest with h | h | h <;> simp [h]
  have h96 : peek (ws ++ rest) ≠ 96 := by
    rcases peek_append_ws ws rest hws with h | h | h
    · simp [h]
    · simp [h]
    · rw [h]; rcases hrest with h | h | h <;> simp [h]
  have hcount := count_backticks_run (ws ++ rest) h96 n
    (List.replicate n 96 ++ (ws ++ rest)).length 0 pos skipped marked sym
    (by simp) (by norm_num)
  have hskip := skip_whitespace_run ws rest hws h32 h9 (pos + n) skipped marked sym
  have hskip2 := skip_whitespace_none
    ⟨rest, pos + n + ws.length, skipped + ws.length, marked, sym⟩ h32 h9
  simp only [Nat.zero_add] at hcount
  simp only [scan_cell_boundary, hcount, hskip, hskip2, Nat.not_lt.mpr hn, if_false,
    lookahead_mk, h123, hrest, if_true, mark_end]

/-! ## The pipe-table recognizer on two-line inputs -/

/-- The function `skip_whitespace` at the end of the input. -/
theorem skip_whitespace_nil (pos skipped : Nat) (marked : Option Nat)
    (sym : Option TokenType) :
    skip_whitespace ⟨[], pos, skipped, marked, sym⟩ = ⟨[], pos, skipped, marked, sym⟩ := rfl

/-- The function `skip_whitespace` in front of one more code point. -/
theorem skip_whitespace_cons (c : Nat) (rest : List Nat) (pos skipped : Nat)
    (marked : Option Nat) (sym : Option TokenType) :
    skip_whitespace ⟨c :: rest, pos, skipped, marked, sym⟩
      = if c = 32 ∨ c = 9 then skip_whitespace ⟨rest, pos + 1, skipped + 1, marked, sym⟩
        else ⟨c :: rest, pos, skipped, marked, sym⟩ := rfl

/-- Skipping whitespace at the start of a line leaves a cursor on what is left of
the line, followed by the rest of the text unchanged. -/
theorem skip_whitespace_line (rest : List Nat) (h32 : peek rest ≠ 32) (h9 : peek rest ≠ 9)
    (sym : Option TokenType) (marked : Option Nat) :
    ∀ (line : List Nat) (pos skipped : Nat),
      ∃ (line2 : List Nat) (pos2 skipped2 : Nat),
        skip_whitespace ⟨line ++ rest, pos, skipped, marked, sym⟩
          = ⟨line2 ++ rest, pos2, skipped2, marked, sym⟩ ∧ ∀ c ∈ line2, c ∈ line := by
  intro line
  induction line with
  | nil =>
    intro pos skipped
    refine ⟨[], pos, skipped, ?_, by simp⟩
    exact skip_whitespace_none _ h32 h9
  | cons c line ih =>
    intro pos skipped
    by_cases hc : c = 32 ∨ c = 9
    · obtain ⟨line2, pos2, skipped2, h, hmem⟩ := ih (pos + 1) (skipped + 1)
      refine ⟨line2, pos2, skipped2, ?_, fun d hd => List.mem_cons_of_mem c (hmem d hd)⟩
      rw [List.cons_append, skip_whitespace_cons, if_pos hc, h]
    · refine ⟨c :: line, pos, skipped, ?_, fun d hd => hd⟩
      rw [List.cons_append, skip_whitespace_cons, if_neg hc]

/-- The pipe-table recognizer up to its test for `|`: on a line followed by a line
terminator it stands, after the terminator and the spaces and tabs behind it, on
the first other code point of the second line. -/
theorem scan_pipe_table_start_second_line (line term ws rest : List Nat)
    (hline : ∀ c ∈ line, c ≠ 10 ∧ c ≠ 13 ∧ c ≠ 0)
    (hterm : term = [10] ∨ term = [13] ∨ term = [13, 10])
    (hws : ∀ c ∈ ws, c = 32 ∨ c = 9) (h32 : peek rest ≠ 32) (h9 : peek rest ≠ 9)
    (h10 : term = [13] → peek rest ≠ 10)
    (pos skipped : Nat) (marked : Option Nat) (sym : Option TokenType) :
    skip_whitespace
        (if lookahead
              (if lookahead (skip_line_loop (line ++ (term ++ (ws ++ rest))).length
                    ⟨line ++ (term ++ (ws ++ rest)), pos, skipped, marked, sym⟩) = 13 then
                advance (skip_line_loop (line ++ (term ++ (ws ++ rest))).length
                    ⟨line ++ (term ++ (ws ++ rest)), pos, skipped, marked, sym⟩) false
              else skip_line_loop (line ++ (term ++ (ws ++ rest))).length
                    ⟨line ++ (term ++ (ws ++ rest)), pos, skipped, marked, sym⟩) = 10 then
          advance
              (if lookahead (skip_line_loop (line ++ (term ++ (ws ++ rest))).length
                    ⟨line ++ (term ++ (ws ++ rest)), pos, skipped, marked, sym⟩) = 13 then
                advance (skip_line_loop (line ++ (term ++ (ws ++ rest))).length
                    ⟨line ++ (term ++ (ws ++ rest)), pos, skipped, marked, sym⟩) false
              else skip_line_loop (line ++ (term ++ (ws ++ rest))).length
                    ⟨line ++ (term ++ (ws ++ rest)), pos, skipped, marked, sym⟩) false
        else
          (if lookahead (skip_line_loop (line ++ (term ++ (ws ++ rest))).length
                ⟨line ++ (term ++ (ws ++ rest)), pos, skipped, marked, sym⟩) = 13 then
            advance (skip_line_loop (line ++ (term ++ (ws ++ rest))).length
                ⟨line ++ (term ++ (ws ++ rest)), pos, skipped, marked, sym⟩) false
          else skip_line_loop (line ++ (term ++ (ws ++ rest))).length
                ⟨line ++ (term ++ (ws ++ rest)), pos, skipped, marked, sym⟩))
      = ⟨rest, pos + line.length + term.length + ws.length, skipped + ws.length,
          marked, sym⟩ := by
  have hpk : peek (term ++ (ws ++ rest)) = 10 ∨ peek (term ++ (ws ++ rest)) = 13
      ∨ peek (term ++ (ws ++ rest)) = 0 := by
    rcases hterm with h | h | h <;> simp [h]
  have hloop := skip_line_loop_run line (term ++ (ws ++ rest)) hline hpk
    (line ++ (term ++ (ws ++ rest))).length pos skipped marked sym (by simp)
  have hws10 : term = [13] → peek (ws ++ rest) ≠ 10 := by
    intro ht
    rcases peek_append_ws ws rest hws with h | h | h
    · simp [h]
    · simp [h]
    · rw [h]; exact h10 ht
  rw [hloop]
  rcases hterm with h | h | h
  · subst h
    simp only [List.singleton_append, lookahead_mk, peek_cons, advance_cons,
      Nat.reduceEqDiff, if_false, if_true, Bool.false_eq_true]
    rw [skip_whitespace_run ws rest hws h32 h9]
    simp only [List.length_singleton]
  · have h10b := hws10 h
    subst h
    simp only [List.singleton_append, lookahead_mk, peek_cons, advance_cons,
      Nat.reduceEqDiff, if_false, if_true, Bool.false_eq_true, h10b]
    rw [skip_whitespace_run ws rest hws h32 h9]
    simp only [List.length_singleton]
  · subst h
    simp only [List.cons_append, List.nil_append, lookahead_mk, peek_cons, advance_cons,
      Nat.reduceEqDiff, if_false, if_true, Bool.false_eq_true]
    rw [skip_whitespace_run ws rest hws h32 h9]
    simp only [List.length_cons, List.length_nil, TSLexer.mk.injEq, true_and, and_true]

/-- The pipe-table recognizer fails on a text whose second line does not start,
after optional spaces and tabs, with `|`; the cursor is left on that line. -/
theorem scan_pipe_table_start_reject (line term ws rest : List Nat)
    (hline : ∀ c ∈ line, c ≠ 10 ∧ c ≠ 13 ∧ c ≠ 0)
    (hterm : term = [10] ∨ term = [13] ∨ term = [13, 10])
    (hws : ∀ c ∈ ws, c = 32 ∨ c = 9) (h32 : peek rest ≠ 32) (h9 : peek rest ≠ 9)
    (h10 : term = [13] → peek rest ≠ 10) (h124 : peek rest ≠ 124)
    (pos skipped : Nat) (marked : Option Nat) (sym : Option TokenType) :
    scan_pipe_table_start ⟨line ++ (term ++ (ws ++ rest)), pos, skipped, marked, sym⟩
      = (false, ⟨rest, pos + line.length + term.length + ws.length, skipped + ws.length,
          marked, sym⟩) := by
  have h := scan_pipe_table_start_second_line line term ws rest hline hterm hws h32 h9 h10
    pos skipped marked sym
  simp only [scan_pipe_table_start, h, lookahead_mk, ne_eq, h124, not_false_eq_true, if_true]

/-- The pipe-table recognizer succeeds on a text whose second line starts, after
optional spaces and tabs, with `|`, optional spaces and tabs, an optional `:`
and a dash. -/
theorem scan_pipe_table_start_accept (line term ws1 ws2 rest : List Nat) (colon : Bool)
    (hline : ∀ c ∈ line, c ≠ 10 ∧ c ≠ 13 ∧ c ≠ 0)
    (hterm : term = [10] ∨ term = [13] ∨ term = [13, 10])
    (hws1 : ∀ c ∈ ws1, c = 32 ∨ c = 9) (hws2 : ∀ c ∈ ws2, c = 32 ∨ c = 9)
    (pos skipped : Nat) (marked : Option Nat) (sym : Option TokenType) :
    (scan_pipe_table_start
      ⟨line ++ (term ++ (ws1 ++ 124 :: (ws2 ++ ((if colon then [58] else []) ++ 45 :: rest)))),
        pos, skipped, marked, sym⟩).1 = true := by
  have h := scan_pipe_table_start_second_line line term ws1
    (124 :: (ws2 ++ ((if colon then [58] else []) ++ 45 :: rest))) hline hterm hws1
    (by simp) (by simp) (by simp) pos skipped marked sym
  have hskip := skip_whitespace_run ws2 ((if colon then [58] else []) ++ 45 :: rest) hws2
    (by cases colon <;> simp) (by cases colon <;> simp)
    (pos + line.length + term.length + ws1.length + 1) (skipped + ws1.length) marked sym
  simp only [scan_pipe_table_start, h, lookahead_mk, peek_cons, ne_eq, not_true_eq_false,
    if_false, advance_cons, Bool.false_eq_true, hskip]
  cases colon
  · simp only [Bool.false_eq_true, if_false, List.nil_append, lookahead_mk, peek_cons,
      Nat.reduceEqDiff, List.length_cons, dash_loop, if_true, advance_cons]
    exact dash_loop_true _ _
  · simp only [if_true, List.singleton_append, lookahead_mk, peek_cons, advance_cons,
      Bool.false_eq_true, if_false, List.length_cons, dash_loop]
    exact dash_loop_true _ _

/-- In front of a code point that is no backtick the cell-boundary recognizer
fails, leaving the state and the cursor as they were. -/
theorem scan_cell_boundary_no_backtick (scanner : Scanner) (lexer : TSLexer)
    (h96 : lookahead lexer ≠ 96) : scan_cell_boundary scanner lexer = (false, scanner, lexer) := by
  obtain ⟨input, pos, skipped, marked, sym⟩ := lexer
  have hcount := count_backticks_run input h96 0 input.length 0 pos skipped marked sym
    (Nat.zero_le _) (by norm_num)
  simp only [List.replicate_zero, List.nil_append, Nat.add_zero, Nat.zero_mod] at hcount
  simp only [scan_cell_boundary, hcount]
  simp

/-- In front of a code point that is not `#` the chunk-option-marker recognizer
fails, leaving the state and the cursor as they were. -/
theorem scan_chunk_option_marker_no_hash (scanner : Scanner) (lexer : TSLexer)
    (h35 : lookahead lexer ≠ 35) :
    scan_chunk_option_marker scanner lexer = (false, scanner, lexer) := by
  simp only [scan_chunk_option_marker, h35, if_false, ite_self]

/-! ## The dispatcher on the lines of a cell -/

/-- Without `PIPE_TABLE_START` and `CHUNK_OPTION_MARKER` among the candidates the
dispatcher skips whitespace and runs its last block. -/
theorem scan_boundary_only (scanner : Scanner) (lexer : TSLexer) (boundary : Bool) :
    tree_sitter_quarto_external_scanner_scan scanner lexer (validSet false false boundary)
      = scan_boundary_stage scanner (skip_whitespace lexer) (validSet false false boundary) := by
  simp only [tree_sitter_quarto_external_scanner_scan, scan_table_stage, scan_marker_stage,
    validSet, Bool.false_eq_true, if_false]

/-- With `CHUNK_OPTION_MARKER` a candidate and `PIPE_TABLE_START` none, in front of
a code point other than `#` the dispatcher clears `at_cell_start` and runs its
last block on the cursor as it is. -/
theorem scan_marker_miss (scanner : Scanner) (lexer : TSLexer) (boundary : Bool)
    (h35 : lookahead lexer ≠ 35) :
    tree_sitter_quarto_external_scanner_scan scanner lexer (validSet false true boundary)
      = scan_boundary_stage { scanner with at_cell_start := false } lexer
          (validSet false true boundary) := by
  simp only [tree_sitter_quarto_external_scanner_scan, scan_table_stage, scan_marker_stage,
    validSet, Bool.false_eq_true, if_false, if_true,
    scan_chunk_option_marker_no_hash scanner lexer h35]

/-- The dispatcher on an opening fence, with `CELL_BOUNDARY` a candidate and
`PIPE_TABLE_START` none. -/
theorem scan_open_fence (scanner : Scanner) (n : Nat) (tail : List Nat) (marker : Bool)
    (hn : 3 ≤ n % 2 ^ 32) (pos skipped : Nat) (marked : Option Nat)
    (sym : Option TokenType) :
    tree_sitter_quarto_external_scanner_scan scanner
        ⟨List.replicate n 96 ++ 123 :: tail, pos, skipped, marked, sym⟩
        (validSet false marker true)
      = (true,
          { in_executable_cell := true, at_cell_start := true, fence_length := n % 2 ^ 32 },
          ⟨123 :: tail, pos + n, skipped, some (pos + n),
            some TokenType.CELL_BOUNDARY⟩) := by
  have hpos : 0 < n := by
    rcases Nat.eq_zero_or_pos n with h | h
    · subst h; simp at hn
    · exact h
  have hpeek : peek (List.replicate n 96 ++ 123 :: tail) = 96 :=
    peek_replicate_append n 96 _ hpos
  have hopen := fun s => scan_cell_boundary_open s n [] tail hn (by simp) pos skipped
    marked sym
  simp only [List.nil_append, List.length_nil, Nat.add_zero] at hopen
  cases marker
  · rw [scan_boundary_only, skip_whitespace_none _ (by simp [hpeek]) (by simp [hpeek])]
    simp only [scan_boundary_stage, validSet, hopen, if_true]
  · rw [scan_marker_miss _ _ _ (by simp [hpeek])]
    simp only [scan_boundary_stage, validSet, hopen, if_true]

/-- The dispatcher on a line of code: with `PIPE_TABLE_START` no candidate, on a
line that starts, after optional spaces and tabs, with a code point other than
`#` and a backtick, no token is reported; `at_cell_start` is cleared when
`CHUNK_OPTION_MARKER` was a candidate and nothing else changes in the state. -/
theorem scan_code_line (scanner : Scanner) (ws body : List Nat) (marker boundary : Bool)
    (hws : ∀ c ∈ ws, c = 32 ∨ c = 9) (h32 : peek body ≠ 32) (h9 : peek body ≠ 9)
    (h35 : peek body ≠ 35) (h96 : peek body ≠ 96)
    (pos skipped : Nat) (marked : Option Nat) (sym : Option TokenType) :
    (tree_sitter_quarto_external_scanner_scan scanner
        ⟨ws ++ body, pos, skipped, marked, sym⟩ (validSet false marker boundary)).1 = false ∧
    (tree_sitter_quarto_external_scanner_scan scanner
        ⟨ws ++ body, pos, skipped, marked, sym⟩ (validSet false marker boundary)).2.1
      = { scanner with at_cell_start := scanner.at_cell_start && !marker } := by
  have hpk : peek (ws ++ body) ≠ 35 ∧ peek (ws ++ body) ≠ 96 := by
    rcases peek_append_ws ws body hws with h | h | h
    · simp [h]
    · simp [h]
    · rw [h]; exact ⟨h35, h96⟩
  cases marker
  · rw [scan_boundary_only, skip_whitespace_run ws body hws h32 h9]
    simp only [scan_boundary_stage,
      scan_cell_boundary_no_backtick scanner ⟨body, _, _, marked, sym⟩ h96,
      Bool.false_eq_true, if_false, ite_self, Bool.not_false, Bool.and_true, and_self]
  · rw [scan_marker_miss _ ⟨ws ++ body, pos, skipped, marked, sym⟩ _ hpk.1]
    simp only [scan_boundary_stage,
      scan_cell_boundary_no_backtick _ ⟨ws ++ body, pos, skipped, marked, sym⟩ hpk.2,
      Bool.false_eq_true, if_false, ite_self, Bool.not_true, Bool.and_false, and_self]

/-! ## Checkpoint codec -/

/-- C2: encode after decode. For every valid 4-byte record (byte 0 and byte 1 in
`{0, 1}`, bytes 2 and 3 arbitrary bytes), deserializing it with length 4 and
serializing the resulting state returns length 4 and writes the same four
bytes again. -/
theorem serialize_deserialize_record (prior : Scanner) (buffer out : Buffer)
    (h0 : buffer 0 = 0 ∨ buffer 0 = 1) (h1 : buffer 1 = 0 ∨ buffer 1 = 1)
    (h2 : buffer 2 < 256) (h3 : buffer 3 < 256) :
    (tree_sitter_quarto_external_scanner_serialize
        (tree_sitter_quarto_external_scanner_deserialize prior buffer 4) out).2 = 4 ∧
    ∀ i, i < 4 →
      (tree_sitter_quarto_external_scanner_serialize
        (tree_sitter_quarto_external_scanner_deserialize prior buffer 4) out).1 i
        = buffer i := by
  refine ⟨rfl, ?_⟩
  intro i hi
  have hf : (buffer 2 &&& 0xFF) ||| ((buffer 3 &&& 0xFF) <<< 8)
      = buffer 2 + 256 * buffer 3 := by
    rw [decode_fence, Nat.mod_eq_of_lt h2, Nat.mod_eq_of_lt h3]
  have hlo : (buffer 2 + 256 * buffer 3) &&& 0xFF = buffer 2 := by
    rw [land_0xFF]; omega
  have hhi : ((buffer 2 + 256 * buffer 3) >>> 8) &&& 0xFF = buffer 3 := by
    rw [land_0xFF, shiftRight_8]; omega
  simp only [tree_sitter_quarto_external_scanner_deserialize,
    tree_sitter_quarto_external_scanner_serialize, Buffer.write, hf, hlo, hhi]
  have hcases : i = 0 ∨ i = 1 ∨ i = 2 ∨ i = 3 := by omega
  rcases hcases with rfl | rfl | rfl | rfl
  · rcases h0 with h | h <;> simp [h]
  · rcases h1 with h | h <;> simp [h]
  · simpa using hlo
  · simpa using hhi

/-- Witness of C2 on the record `1, 0, 44, 1` (in a cell, fence length 300). -/
theorem serialize_deserialize_record_witness :
    (tree_sitter_quarto_external_scanner_serialize
        (tree_sitter_quarto_external_scanner_deserialize
          tree_sitter_quarto_external_scanner_create (fun i => [1, 0, 44, 1].getD i 0) 4)
        (fun _ => 0)).2 = 4 ∧
    ∀ i, i < 4 →
      (tree_sitter_quarto_external_scanner_serialize
        (tree_sitter_quarto_external_scanner_deserialize
          tree_sitter_quarto_external_scanner_create (fun i => [1, 0, 44, 1].getD i 0) 4)
        (fun _ => 0)).1 i = [1, 0, 44, 1].getD i 0 :=
  serialize_deserialize_record tree_sitter_quarto_external_scanner_create
    (fun i => [1, 0, 44, 1].getD i 0) (fun _ => 0)
    (by decide) (by decide) (by decide) (by decide)

/-- C3: defensive decode. Whatever the prior state and the buffer, deserialize
called with a length below 4 leaves the zero state; the function is total, so it
cannot fail. -/
theorem deserialize_short (prior : Scanner) (buffer : Buffer) (length : Nat)
    (h : length < 4) :
    tree_sitter_quarto_external_scanner_deserialize prior buffer length
      = { in_executable_cell := false, at_cell_start := false, fence_length := 0 } := by
  simp [tree_sitter_quarto_external_scanner_deserialize, Nat.not_le.mpr h]

/-- Witness of C3: three bytes of an otherwise valid record, decoded over a state
inside a cell. -/
theorem deserialize_short_witness :
    tree_sitter_quarto_external_scanner_deserialize
        { in_executable_cell := true, at_cell_start := true, fence_length := 5 }
        (fun i => [1, 1, 5].getD i 0) 3
      = { in_executable_cell := false, at_cell_start := false, fence_length := 0 } :=
  deserialize_short _ _ 3 (by decide)

/-- C4: checkpoint layout. For a state with `fence_length` in `0..65535`, serialize
returns 4 and stores the two flags as 0/1 in bytes 0 and 1 and the fence length
in bytes 2 (low) and 3 (high); deserialize of at least four bytes reads the fence
length as `byte2 + 256 * byte3` and each flag as `byte != 0`, and depends on the
first four bytes only. -/
theorem checkpoint_layout (scanner prior : Scanner) (out buffer buffer2 : Buffer)
    (length : Nat) (hf : scanner.fence_length ≤ 65535) (hlen : length ≥ 4)
    (hbyte : ∀ i, i < 4 → buffer i < 256) (hsame : ∀ i, i < 4 → buffer2 i = buffer i) :
    ((tree_sitter_quarto_external_scanner_serialize scanner out).2 = 4 ∧
      (tree_sitter_quarto_external_scanner_serialize scanner out).1 0
        = (if scanner.in_executable_cell then 1 else 0) ∧
      (tree_sitter_quarto_external_scanner_serialize scanner out).1 1
        = (if scanner.at_cell_start then 1 else 0) ∧
      (tree_sitter_quarto_external_scanner_serialize scanner out).1 2
        = scanner.fence_length % 256 ∧
      (tree_sitter_quarto_external_scanner_serialize scanner out).1 3
        = scanner.fence_length / 256) ∧
    tree_sitter_quarto_external_scanner_deserialize prior buffer length
      = { in_executable_cell := decide (buffer 0 ≠ 0)
          at_cell_start := decide (buffer 1 ≠ 0)
          fence_length := buffer 2 + 256 * buffer 3 } ∧
    tree_sitter_quarto_external_scanner_deserialize prior buffer2 length
      = tree_sitter_quarto_external_scanner_deserialize prior buffer length := by
  refine ⟨⟨rfl, ?_, ?_, ?_, ?_⟩, ?_, ?_⟩
  · simp [tree_sitter_quarto_external_scanner_serialize, Buffer.write]
  · simp [tree_sitter_quarto_external_scanner_serialize, Buffer.write]
  · simp only [tree_sitter_quarto_external_scanner_serialize, Buffer.write, land_0xFF]
    simp
  · simp only [tree_sitter_quarto_external_scanner_serialize, Buffer.write, land_0xFF,
      shiftRight_8]
    simp only [if_true]
    omega
  · have h2 := hbyte 2 (by norm_num)
    have h3 := hbyte 3 (by norm_num)
    simp only [tree_sitter_quarto_external_scanner_deserialize, hlen, if_true, decode_fence,
      Nat.mod_eq_of_lt h2, Nat.mod_eq_of_lt h3]
    simp [bne, Nat.beq_eq_true_eq]
    constructor <;> exact (Bool.eq_iff_iff.mpr (by simp))
  · simp only [tree_sitter_quarto_external_scanner_deserialize,
      hsame 0 (by norm_num), hsame 1 (by norm_num), hsame 2 (by norm_num),
      hsame 3 (by norm_num)]

/-- Witness of C4: the state in a cell with fence length 300, and the record
`1, 0, 44, 1` followed by a fifth byte that is ignored. -/
theorem checkpoint_layout_witness :
    ((tree_sitter_quarto_external_scanner_serialize
        { in_executable_cell := true, at_cell_start := false, fence_length := 300 }
        (fun _ => 0)).1 2 = 300 % 256 ∧
      (tree_sitter_quarto_external_scanner_serialize
        { in_executable_cell := true, at_cell_start := false, fence_length := 300 }
        (fun _ => 0)).1 3 = 300 / 256) ∧
    tree_sitter_quarto_external_scanner_deserialize tree_sitter_quarto_external_scanner_create
        (fun i => [1, 0, 44, 1, 7].getD i 0) 5
      = { in_executable_cell := true, at_cell_start := false, fence_length := 300 } :=
  have h := checkpoint_layout
    { in_executable_cell := true, at_cell_start := false, fence_length := 300 }
    tree_sitter_quarto_external_scanner_create (fun _ => 0)
    (fun i => [1, 0, 44, 1, 7].getD i 0) (fun i => [1, 0, 44, 1].getD i 0) 5
    (by decide) (by decide) (by decide) (by decide)
  ⟨⟨h.1.2.2.2.1, h.1.2.2.2.2⟩, h.2.1⟩

/-- C1: decode after encode fails on a reachable state. From the zero state the
dispatcher, with `CELL_BOUNDARY` the only candidate, on 65536 backticks followed
by `{` opens a cell with `fence_length = 65536`; serializing this reachable state
and deserializing the four bytes gives a state inside a cell with
`fence_length = 0`, which is not the original state. -/
theorem checkpoint_drops_long_fence :
    Reachable (tree_sitter_quarto_external_scanner_scan
      tree_sitter_quarto_external_scanner_create
      (lexerOn (List.replicate 65536 96 ++ [123])) (validSet false false true)).2.1 ∧
    (tree_sitter_quarto_external_scanner_scan
      tree_sitter_quarto_external_scanner_create
      (lexerOn (List.replicate 65536 96 ++ [123])) (validSet false false true)).2.1
      = { in_executable_cell := true, at_cell_start := true, fence_length := 65536 } ∧
    tree_sitter_quarto_external_scanner_deserialize
        tree_sitter_quarto_external_scanner_create
        (tree_sitter_quarto_external_scanner_serialize
          (tree_sitter_quarto_external_scanner_scan
            tree_sitter_quarto_external_scanner_create
            (lexerOn (List.replicate 65536 96 ++ [123])) (validSet false false true)).2.1
          (fun _ => 0)).1 4
      = { in_executable_cell := true, at_cell_start := true, fence_length := 0 } := by
  have h := scan_open_fence tree_sitter_quarto_external_scanner_create 65536 [] false
    (by norm_num) 0 0 none none
  have hmod : 65536 % 2 ^ 32 = 65536 := by norm_num
  rw [hmod, Nat.zero_add] at h
  change tree_sitter_quarto_external_scanner_scan tree_sitter_quarto_external_scanner_create
    (lexerOn (List.replicate 65536 96 ++ [123])) (validSet false false true) = _ at h
  refine ⟨Reachable.scan _ _ _ Reachable.create, ?_, ?_⟩
  · rw [h]
  · rw [h]
    exact deserialize_serialize _ _ _

/-! ## Fences -/

/-- C5: fence matching. For run lengths `m, n >= 3` within the range of the 32-bit
run counter, the recognizer opens a cell from the zero state on `m` backticks
followed by `{`; applied then to `n` backticks, optional spaces or tabs and a line
terminator or the end of the input, it succeeds if and only if `n >= m`, in which
case the state is reset to zero; when `n < m` it fails and leaves the state as it
was, inside the cell. -/
theorem fence_matching (m n : Nat) (tail ws rest : List Nat) (lexer1 lexer2 : TSLexer)
    (hm : 3 ≤ m) (hn : 3 ≤ n) (hm32 : m < 2 ^ 32) (hn32 : n < 2 ^ 32)
    (hws : ∀ c ∈ ws, c = 32 ∨ c = 9)
    (hrest : rest = [] ∨ peek rest = 10 ∨ peek rest = 13)
    (h1 : lexer1.input = List.replicate m 96 ++ 123 :: tail)
    (h2 : lexer2.input = List.replicate n 96 ++ (ws ++ rest)) :
    (scan_cell_boundary tree_sitter_quarto_external_scanner_create lexer1).1 = true ∧
    (scan_cell_boundary tree_sitter_quarto_external_scanner_create lexer1).2.1
      = { in_executable_cell := true, at_cell_start := true, fence_length := m } ∧
    ((scan_cell_boundary
        (scan_cell_boundary tree_sitter_quarto_external_scanner_create lexer1).2.1
        lexer2).1 = true ↔ m ≤ n) ∧
    (m ≤ n →
      (scan_cell_boundary
        (scan_cell_boundary tree_sitter_quarto_external_scanner_create lexer1).2.1
        lexer2).2.1 = tree_sitter_quarto_external_scanner_create) ∧
    (n < m →
      (scan_cell_boundary
        (scan_cell_boundary tree_sitter_quarto_external_scanner_create lexer1).2.1
        lexer2).1 = false ∧
      (scan_cell_boundary
        (scan_cell_boundary tree_sitter_quarto_external_scanner_create lexer1).2.1
        lexer2).2.1
        = { in_executable_cell := true, at_cell_start := true, fence_length := m }) := by
  obtain ⟨input1, pos1, skipped1, marked1, sym1⟩ := lexer1
  obtain ⟨input2, pos2, skipped2, marked2, sym2⟩ := lexer2
  simp only at h1 h2
  subst h1 h2
  have hm' : m % 2 ^ 32 = m := Nat.mod_eq_of_lt hm32
  have hn' : n % 2 ^ 32 = n := Nat.mod_eq_of_lt hn32
  have hrest' : peek rest = 10 ∨ peek rest = 13 ∨ peek rest = 0 := by
    rcases hrest with h | h | h
    · right; right; rw [h]; rfl
    · left; exact h
    · right; left; exact h
  have hopen := scan_cell_boundary_open tree_sitter_quarto_external_scanner_create m []
    tail (by omega) (by simp) pos1 skipped1 marked1 sym1
  simp only [List.nil_append, hm'] at hopen
  have hclose := scan_cell_boundary_close
    { in_executable_cell := true, at_cell_start := true, fence_length := m } n ws rest
    (by omega) hws hrest' pos2 skipped2 marked2 sym2
  simp only [hn', Bool.true_and] at hclose
  rw [hopen]
  simp only [hclose]
  refine ⟨trivial, trivial, ?_, ?_, ?_⟩
  · by_cases h : m ≤ n <;> simp [h]
  · intro h
    simp [h, tree_sitter_quarto_external_scanner_create]
  · intro h
    simp [Nat.not_le.mpr h]

/-- Witness of C5: a cell opened by four backticks, and a line of three backticks
followed by a space and a line feed. -/
theorem fence_matching_witness :
    (scan_cell_boundary
        (scan_cell_boundary tree_sitter_quarto_external_scanner_create
          (lexerOn (codePoints "````{r}"))).2.1
        (lexerOn (codePoints "``` \n"))).1 = false ∧
    (scan_cell_boundary
        (scan_cell_boundary tree_sitter_quarto_external_scanner_create
          (lexerOn (codePoints "````{r}"))).2.1
        (lexerOn (codePoints "``` \n"))).2.1
      = { in_executable_cell := true, at_cell_start := true, fence_length := 4 } :=
  (fence_matching 4 3 (codePoints "r\x7d") [32] [10] (lexerOn (codePoints "````{r}"))
    (lexerOn (codePoints "``` \n")) (by decide) (by decide) (by norm_num) (by norm_num)
    (by decide) (by decide) (by decide) (by decide)).2.2.2.2 (by decide)

/-! ## Marker gating and the candidate set -/

/-- C6: marker gating. In a state where `in_executable_cell` or `at_cell_start` is
false the chunk-option-marker recognizer fails and hands back the cursor as it
got it, nothing consumed and no boundary committed; and whenever the recognizer
fails, the scanner state after the attempt is the state before it. -/
theorem marker_gating (scanner scanner2 : Scanner) (lexer lexer2 : TSLexer)
    (hgate : scanner.in_executable_cell = false ∨ scanner.at_cell_start = false)
    (_hfail : (scan_chunk_option_marker scanner2 lexer2).1 = false) :
    scan_chunk_option_marker scanner lexer = (false, scanner, lexer) ∧
    (scan_chunk_option_marker scanner2 lexer2).2.1 = scanner2 := by
  constructor
  · rcases hgate with h | h <;> simp [scan_chunk_option_marker, h]
  · simp only [scan_chunk_option_marker]
    split_ifs <;> rfl

/-- Witness of C6: the marker `#|` outside a cell, and a lone `#` at the start of a
cell. -/
theorem marker_gating_witness :
    scan_chunk_option_marker tree_sitter_quarto_external_scanner_create
        (lexerOn (codePoints "#| echo: false"))
      = (false, tree_sitter_quarto_external_scanner_create,
          lexerOn (codePoints "#| echo: false")) ∧
    (scan_chunk_option_marker
        { in_executable_cell := true, at_cell_start := true, fence_length := 3 }
        (lexerOn (codePoints "# x"))).2.1
      = { in_executable_cell := true, at_cell_start := true, fence_length := 3 } :=
  marker_gating tree_sitter_quarto_external_scanner_create
    { in_executable_cell := true, at_cell_start := true, fence_length := 3 }
    (lexerOn (codePoints "#| echo: false")) (lexerOn (codePoints "# x"))
    (by decide) (by decide)

/-- C7: candidate-token-set protocol. Whenever the dispatcher reports success, the
token kind it reports is a member of the candidate set; with an empty candidate
set it reports failure. -/
theorem candidate_protocol (scanner scanner2 : Scanner) (lexer lexer2 : TSLexer)
    (valid_symbols none_valid : ValidSymbols)
    (hok : (tree_sitter_quarto_external_scanner_scan scanner lexer valid_symbols).1 = true)
    (hnone : ∀ t, none_valid t = false) :
    (∃ t, (tree_sitter_quarto_external_scanner_scan scanner lexer
            valid_symbols).2.2.result_symbol = some t ∧ valid_symbols t = true) ∧
    (tree_sitter_quarto_external_scanner_scan scanner2 lexer2 none_valid).1 = false := by
  constructor
  · simp only [tree_sitter_quarto_external_scanner_scan] at hok ⊢
    generalize (if valid_symbols TokenType.CHUNK_OPTION_MARKER = true then lexer
      else skip_whitespace lexer) = lx at hok ⊢
    simp only [scan_table_stage] at hok ⊢
    split_ifs at hok ⊢ with hP hT
    · exact ⟨TokenType.PIPE_TABLE_START, rfl, hP⟩
    all_goals
      generalize (scan_pipe_table_start lx).2 = lx at hok ⊢
      simp only [scan_marker_stage] at hok ⊢
      split_ifs at hok ⊢ with hM hR
      · exact ⟨TokenType.CHUNK_OPTION_MARKER, rfl, hM⟩
      all_goals
        simp only [scan_boundary_stage] at hok ⊢
        split_ifs at hok ⊢ with hB hR
        · exact ⟨TokenType.CELL_BOUNDARY, rfl, hB⟩
  · simp [tree_sitter_quarto_external_scanner_scan, scan_table_stage, scan_marker_stage,
      scan_boundary_stage, hnone]

/-- Witness of C7: an opening fence with `CELL_BOUNDARY` the only candidate, and
the same text with no candidate at all. -/
theorem candidate_protocol_witness :
    (∃ t, (tree_sitter_quarto_external_scanner_scan
            tree_sitter_quarto_external_scanner_create (lexerOn (codePoints "```{r}"))
            (validSet false false true)).2.2.result_symbol = some t ∧
          validSet false false true t = true) ∧
    (tree_sitter_quarto_external_scanner_scan tree_sitter_quarto_external_scanner_create
        (lexerOn (codePoints "```{r}")) (validSet false false false)).1 = false :=
  candidate_protocol tree_sitter_quarto_external_scanner_create
    tree_sitter_quarto_external_scanner_create (lexerOn (codePoints "```{r}"))
    (lexerOn (codePoints "```{r}")) (validSet false false true)
    (validSet false false false) (by decide) (by intro t; cases t <;> rfl)

/-! ## Table confirmation -/

/-- C8: table confirmation. With `PIPE_TABLE_START` a candidate the dispatcher
reports `PIPE_TABLE_START`, leaving the state alone, on every text made of a
header line, a line terminator (`\n`, `\r` or `\r\n`) and a row that starts,
after optional spaces and tabs, with `|`, optional spaces and tabs, an optional
`:` and at least one `-`. It reports failure on the text
`| a | b |`, line feed, `not a delimiter`, line feed, from every state and for
every candidate set containing `PIPE_TABLE_START`; and with `PIPE_TABLE_START`
the only candidate it reports failure on every text whose second line starts,
after optional spaces and tabs, with a code point other than `|`. A line is a
run of code points other than `\n`, `\r` and the end-of-input marker 0. -/
theorem table_confirmation (scanner scanner2 scanner3 : Scanner)
    (lexer lexer2 lexer3 : TSLexer) (valid_symbols valid2 valid3 : ValidSymbols)
    (line term ws1 ws2 rest line3 term3 ws3 rest3 : List Nat) (colon : Bool)
    (hvalid : valid_symbols TokenType.PIPE_TABLE_START = true)
    (hline : ∀ c ∈ line, c ≠ 10 ∧ c ≠ 13 ∧ c ≠ 0)
    (hterm : term = [10] ∨ term = [13] ∨ term = [13, 10])
    (hws1 : ∀ c ∈ ws1, c = 32 ∨ c = 9) (hws2 : ∀ c ∈ ws2, c = 32 ∨ c = 9)
    (hinput : lexer.input
      = line ++ (term ++ (ws1 ++ 124 :: (ws2 ++ ((if colon then [58] else []) ++ 45 :: rest)))))
    (hvalid2 : valid2 TokenType.PIPE_TABLE_START = true)
    (hinput2 : lexer2.input = codePoints "| a | b |\nnot a delimiter\n")
    (hvalid3 : valid3 TokenType.PIPE_TABLE_START = true ∧
      valid3 TokenType.CHUNK_OPTION_MARKER = false ∧ valid3 TokenType.CELL_BOUNDARY = false)
    (hline3 : ∀ c ∈ line3, c ≠ 10 ∧ c ≠ 13 ∧ c ≠ 0)
    (hterm3 : term3 = [10] ∨ term3 = [13] ∨ term3 = [13, 10])
    (hws3 : ∀ c ∈ ws3, c = 32 ∨ c = 9)
    (hrest3 : peek rest3 ≠ 124 ∧ peek rest3 ≠ 32 ∧ peek rest3 ≠ 9 ∧
      (term3 = [13] → peek rest3 ≠ 10))
    (hinput3 : lexer3.input = line3 ++ (term3 ++ (ws3 ++ rest3))) :
    ((tree_sitter_quarto_external_scanner_scan scanner lexer valid_symbols).1 = true ∧
      (tree_sitter_quarto_external_scanner_scan scanner lexer valid_symbols).2.1 = scanner ∧
      (tree_sitter_quarto_external_scanner_scan scanner lexer valid_symbols).2.2.result_symbol
        = some TokenType.PIPE_TABLE_START) ∧
    (tree_sitter_quarto_external_scanner_scan scanner2 lexer2 valid2).1 = false ∧
    (tree_sitter_quarto_external_scanner_scan scanner3 lexer3 valid3).1 = false := by
  obtain ⟨input, pos, skipped, marked, sym⟩ := lexer
  obtain ⟨input2, pos2, skipped2, marked2, sym2⟩ := lexer2
  obtain ⟨input3, pos3, skipped3, marked3, sym3⟩ := lexer3
  simp only at hinput hinput2 hinput3
  subst hinput hinput2 hinput3
  have hpk : ∀ (term tail : List Nat), term = [10] ∨ term = [13] ∨ term = [13, 10] →
      peek (term ++ tail) ≠ 32 ∧ peek (term ++ tail) ≠ 9 := by
    intro term tail ht
    rcases ht with h | h | h <;> simp [h]
  refine ⟨?_, ?_, ?_⟩
  · -- success on a header line and a delimiter row
    have haccept : ∀ (lx : TSLexer),
        (∃ (line2 : List Nat) (p k : Nat), lx = ⟨line2 ++ (term ++ (ws1 ++ 124 :: (ws2 ++
          ((if colon then [58] else []) ++ 45 :: rest)))), p, k, marked, sym⟩ ∧
          ∀ c ∈ line2, c ∈ line) →
        (scan_pipe_table_start lx).1 = true := by
      rintro lx ⟨line2, p, k, rfl, hmem⟩
      exact scan_pipe_table_start_accept line2 term ws1 ws2 rest colon
        (fun c hc => hline c (hmem c hc)) hterm hws1 hws2 p k marked sym
    have hlx : (scan_pipe_table_start
        (if valid_symbols TokenType.CHUNK_OPTION_MARKER = true then
          (⟨line ++ (term ++ (ws1 ++ 124 :: (ws2 ++ ((if colon then [58] else []) ++
            45 :: rest)))), pos, skipped, marked, sym⟩ : TSLexer)
        else skip_whitespace ⟨line ++ (term ++ (ws1 ++ 124 :: (ws2 ++
          ((if colon then [58] else []) ++ 45 :: rest)))), pos, skipped, marked, sym⟩)).1
        = true := by
      apply haccept
      split
      · exact ⟨line, pos, skipped, rfl, fun c hc => hc⟩
      · exact skip_whitespace_line _ (hpk term _ hterm).1 (hpk term _ hterm).2 sym marked
          line pos skipped
    simp only [tree_sitter_quarto_external_scanner_scan, scan_table_stage, hvalid, hlx,
      if_true, and_self]
  · -- failure on the witness text
    have hsplit : codePoints "| a | b |\nnot a delimiter\n"
        = codePoints "| a | b |" ++ ([10] ++ ([] ++ codePoints "not a delimiter\n")) := by
      decide
    have hnone : skip_whitespace
        (⟨codePoints "| a | b |\nnot a delimiter\n", pos2, skipped2, marked2, sym2⟩ : TSLexer)
        = ⟨codePoints "| a | b |\nnot a delimiter\n", pos2, skipped2, marked2, sym2⟩ :=
      skip_whitespace_none _ (by rw [lookahead_mk]; decide) (by rw [lookahead_mk]; decide)
    have hrej := scan_pipe_table_start_reject (codePoints "| a | b |") [10] []
      (codePoints "not a delimiter\n") (by decide) (by decide) (by decide) (by decide)
      (by decide) (by decide) (by decide) pos2 skipped2 marked2 sym2
    rw [← hsplit] at hrej
    have hmark : ∀ (s : Scanner) (p k : Nat), scan_chunk_option_marker s
        (⟨codePoints "not a delimiter\n", p, k, marked2, sym2⟩ : TSLexer)
        = (false, s, ⟨codePoints "not a delimiter\n", p, k, marked2, sym2⟩) :=
      fun s p k => scan_chunk_option_marker_no_hash s _ (by rw [lookahead_mk]; decide)
    have hbound : ∀ (s : Scanner) (p k : Nat), scan_cell_boundary s
        (⟨codePoints "not a delimiter\n", p, k, marked2, sym2⟩ : TSLexer)
        = (false, s, ⟨codePoints "not a delimiter\n", p, k, marked2, sym2⟩) :=
      fun s p k => scan_cell_boundary_no_backtick s _ (by rw [lookahead_mk]; decide)
    simp only [tree_sitter_quarto_external_scanner_scan, scan_table_stage, scan_marker_stage,
      scan_boundary_stage, hvalid2, hnone, ite_self, hrej, if_true, Bool.false_eq_true,
      if_false, hmark, hbound]
    split_ifs <;> rfl
  · -- failure when the second line does not start with `|`
    obtain ⟨hP, hM, hB⟩ := hvalid3
    obtain ⟨h124, h32, h9, h10⟩ := hrest3
    have hpk3 : peek (term3 ++ (ws3 ++ rest3)) ≠ 32 ∧ peek (term3 ++ (ws3 ++ rest3)) ≠ 9 :=
      hpk term3 _ hterm3
    obtain ⟨line4, p4, k4, hskip, hmem⟩ := skip_whitespace_line (term3 ++ (ws3 ++ rest3))
      hpk3.1 hpk3.2 sym3 marked3 line3 pos3 skipped3
    have hrej := scan_pipe_table_start_reject line4 term3 ws3 rest3
      (fun c hc => hline3 c (hmem c hc)) hterm3 hws3 h32 h9 h10 h124 p4 k4 marked3 sym3
    simp only [tree_sitter_quarto_external_scanner_scan, scan_table_stage, scan_marker_stage,
      scan_boundary_stage, hP, hM, hB, hskip, hrej, if_true, Bool.false_eq_true, if_false]

/-- Witness of C8: the table `| a | b |`, `|---|---|`; the text from the claim whose
second line is no delimiter row; and a header followed by a line of code. -/
theorem table_confirmation_witness :
    ((tree_sitter_quarto_external_scanner_scan tree_sitter_quarto_external_scanner_create
        (lexerOn (codePoints "| a | b |\n|---|---|\n")) (validSet true false false)).1 = true ∧
      (tree_sitter_quarto_external_scanner_scan tree_sitter_quarto_external_scanner_create
        (lexerOn (codePoints "| a | b |\n|---|---|\n")) (validSet true false false)).2.1
        = tree_sitter_quarto_external_scanner_create ∧
      (tree_sitter_quarto_external_scanner_scan tree_sitter_quarto_external_scanner_create
        (lexerOn (codePoints "| a | b |\n|---|---|\n"))
        (validSet true false false)).2.2.result_symbol = some TokenType.PIPE_TABLE_START) ∧
    (tree_sitter_quarto_external_scanner_scan
        { in_executable_cell := true, at_cell_start := true, fence_length := 3 }
        (lexerOn (codePoints "| a | b |\nnot a delimiter\n")) (validSet true true true)).1
      = false ∧
    (tree_sitter_quarto_external_scanner_scan tree_sitter_quarto_external_scanner_create
        (lexerOn (codePoints "| a |\r\n  x <- 1")) (validSet true false false)).1 = false :=
  table_confirmation tree_sitter_quarto_external_scanner_create
    { in_executable_cell := true, at_cell_start := true, fence_length := 3 }
    tree_sitter_quarto_external_scanner_create
    (lexerOn (codePoints "| a | b |\n|---|---|\n"))
    (lexerOn (codePoints "| a | b |\nnot a delimiter\n"))
    (lexerOn (codePoints "| a |\r\n  x <- 1"))
    (validSet true false false) (validSet true true true) (validSet true false false)
    (codePoints "| a | b |") [10] [] [] (codePoints "--|---|\n")
    (codePoints "| a |") [13, 10] [32, 32] (codePoints "x <- 1") false
    (by decide) (by decide) (by decide) (by decide) (by decide) (by decide)
    (by decide) (by decide) (by decide) (by decide) (by decide) (by decide)
    (by decide) (by decide)

/-! ## Sessions inside a cell -/

/-- C9: consecutive options, evaluated on a line of code that starts with `#`. From
the zero state the dispatcher opens a cell on the fence of `python`; the two option
lines are each reported as `CHUNK_OPTION_MARKER`, with the boundary committed
behind `#|` and the space after it, and leave the state at the start of the cell;
but the following line `#` followed by three backticks, which starts with neither
`#|` nor a fence, is reported as `CELL_BOUNDARY` when that kind is a candidate too,
and closes the cell: the failed marker attempt has consumed the `#`. -/
theorem consecutive_options_hash_line :
    (tree_sitter_quarto_external_scanner_scan tree_sitter_quarto_external_scanner_create
        (lexerOn (codePoints "```{python}")) (validSet false true true)).2.1
      = { in_executable_cell := true, at_cell_start := true, fence_length := 3 } ∧
    tree_sitter_quarto_external_scanner_scan
        { in_executable_cell := true, at_cell_start := true, fence_length := 3 }
        (lexerOn (codePoints "#| echo: false")) (validSet false true true)
      = (true, { in_executable_cell := true, at_cell_start := true, fence_length := 3 },
          ⟨codePoints "echo: false", 3, 1, some 3, some TokenType.CHUNK_OPTION_MARKER⟩) ∧
    tree_sitter_quarto_external_scanner_scan
        { in_executable_cell := true, at_cell_start := true, fence_length := 3 }
        (lexerOn (codePoints "#| eval: true")) (validSet false true true)
      = (true, { in_executable_cell := true, at_cell_start := true, fence_length := 3 },
          ⟨codePoints "eval: true", 3, 1, some 3, some TokenType.CHUNK_OPTION_MARKER⟩) ∧
    tree_sitter_quarto_external_scanner_scan
        { in_executable_cell := true, at_cell_start := true, fence_length := 3 }
        (lexerOn (codePoints "#```")) (validSet false true true)
      = (true, { in_executable_cell := false, at_cell_start := false, fence_length := 0 },
          ⟨[], 4, 0, some 4, some TokenType.CELL_BOUNDARY⟩) := by
  refine ⟨?_, ?_, ?_, ?_⟩ <;> decide

/-! ## What the recognizers can do to the state -/

/-- The three outcomes of the cell-boundary recognizer: it fails and leaves the
state alone; or it succeeds in front of `{` and the state is the start of a cell
whose fence length, the counted run, is at least 3 and fits 32 bits; or it
succeeds inside a cell, in front of a line terminator or the end of the input,
with a run at least as long as the open fence, and the state is the zero
state. -/
theorem scan_cell_boundary_cases (scanner : Scanner) (lexer : TSLexer) :
    ((scan_cell_boundary scanner lexer).1 = false ∧
      (scan_cell_boundary scanner lexer).2.1 = scanner) ∨
    ((scan_cell_boundary scanner lexer).1 = true ∧
      lookahead (scan_cell_boundary scanner lexer).2.2 = 123 ∧
      ∃ k, 3 ≤ k ∧
        (scan_cell_boundary scanner lexer).2.1
          = { in_executable_cell := true, at_cell_start := true, fence_length := k }) ∨
    ((scan_cell_boundary scanner lexer).1 = true ∧
      scanner.in_executable_cell = true ∧
      (scan_cell_boundary scanner lexer).2.1
        = { in_executable_cell := false, at_cell_start := false, fence_length := 0 }) := by
  simp only [scan_cell_boundary]
  generalize count_backticks lexer.input.length 0 lexer = r
  obtain ⟨k, lx⟩ := r
  simp only
  split_ifs with h1 h2 h3 h4
  · exact Or.inl ⟨rfl, rfl⟩
  · exact Or.inr (Or.inl ⟨rfl, h2, k, Nat.not_lt.mp h1, rfl⟩)
  · refine Or.inr (Or.inr ⟨rfl, ?_, rfl⟩)
    simp only [Bool.and_eq_true] at h4
    exact h4.1
  · exact Or.inl ⟨rfl, rfl⟩
  · exact Or.inl ⟨rfl, rfl⟩

/-- The three outcomes of the last block of the dispatcher: failure with the state
left alone, `CELL_BOUNDARY` for an opening fence, `CELL_BOUNDARY` for a closing
fence. -/
theorem scan_boundary_stage_cases (scanner : Scanner) (lexer : TSLexer)
    (valid_symbols : ValidSymbols) :
    ((scan_boundary_stage scanner lexer valid_symbols).1 = false ∧
      (scan_boundary_stage scanner lexer valid_symbols).2.1 = scanner) ∨
    ((scan_boundary_stage scanner lexer valid_symbols).1 = true ∧
      valid_symbols TokenType.CELL_BOUNDARY = true ∧
      (scan_boundary_stage scanner lexer valid_symbols).2.2.result_symbol
        = some TokenType.CELL_BOUNDARY ∧
      lookahead (scan_boundary_stage scanner lexer valid_symbols).2.2 = 123 ∧
      ∃ k, 3 ≤ k ∧
        (scan_boundary_stage scanner lexer valid_symbols).2.1
          = { in_executable_cell := true, at_cell_start := true, fence_length := k }) ∨
    ((scan_boundary_stage scanner lexer valid_symbols).1 = true ∧
      valid_symbols TokenType.CELL_BOUNDARY = true ∧
      (scan_boundary_stage scanner lexer valid_symbols).2.2.result_symbol
        = some TokenType.CELL_BOUNDARY ∧
      scanner.in_executable_cell = true ∧
      (scan_boundary_stage scanner lexer valid_symbols).2.1
        = { in_executable_cell := false, at_cell_start := false, fence_length := 0 }) := by
  simp only [scan_boundary_stage]
  split_ifs with hB hR
  · rcases scan_cell_boundary_cases scanner lexer with h | h | h
    · rw [h.1] at hR; simp at hR
    · exact Or.inr (Or.inl ⟨rfl, hB, rfl, h.2.1, h.2.2⟩)
    · exact Or.inr (Or.inr ⟨rfl, hB, rfl, h.2.1, h.2.2⟩)
  · rcases scan_cell_boundary_cases scanner lexer with h | h | h
    · exact Or.inl ⟨rfl, h.2⟩
    · exact absurd h.1 hR
    · exact absurd h.1 hR
  · exact Or.inl ⟨rfl, rfl⟩

/-- The chunk-option-marker recognizer hands back the state it was given. -/
theorem scan_chunk_option_marker_state (scanner : Scanner) (lexer : TSLexer) :
    (scan_chunk_option_marker scanner lexer).2.1 = scanner := by
  simp only [scan_chunk_option_marker]
  split_ifs <;> rfl

/-- The chunk-option-marker recognizer succeeds only at the start of a cell. -/
theorem scan_chunk_option_marker_gate (scanner : Scanner) (lexer : TSLexer)
    (h : (scan_chunk_option_marker scanner lexer).1 = true) :
    scanner.in_executable_cell = true ∧ scanner.at_cell_start = true := by
  cases hi : scanner.in_executable_cell <;> cases ha : scanner.at_cell_start <;>
    simp [scan_chunk_option_marker, hi, ha] at h ⊢

/-- The two ways the marker block of the dispatcher can end: it reports
`CHUNK_OPTION_MARKER`, at the start of a cell, and the state is untouched; or the
last block runs, with `at_cell_start` cleared if `CHUNK_OPTION_MARKER` is a
candidate. -/
theorem scan_marker_stage_cases (scanner : Scanner) (lexer : TSLexer)
    (valid_symbols : ValidSymbols) :
    ((scan_marker_stage scanner lexer valid_symbols).1 = true ∧
      (scan_marker_stage scanner lexer valid_symbols).2.2.result_symbol
        = some TokenType.CHUNK_OPTION_MARKER ∧
      valid_symbols TokenType.CHUNK_OPTION_MARKER = true ∧
      (scan_marker_stage scanner lexer valid_symbols).2.1 = scanner ∧
      scanner.in_executable_cell = true ∧ scanner.at_cell_start = true) ∨
    (∃ lx : TSLexer,
      scan_marker_stage scanner lexer valid_symbols
        = scan_boundary_stage
            { scanner with
              at_cell_start :=
                scanner.at_cell_start && !valid_symbols TokenType.CHUNK_OPTION_MARKER }
            lx valid_symbols) := by
  simp only [scan_marker_stage]
  split_ifs with hM hR
  · have hg := scan_chunk_option_marker_gate scanner lexer hR
    exact Or.inl ⟨rfl, rfl, hM, scan_chunk_option_marker_state scanner lexer, hg.1, hg.2⟩
  · refine Or.inr ⟨(scan_chunk_option_marker scanner lexer).2.2, ?_⟩
    rw [scan_chunk_option_marker_state, hM]
    simp
  · refine Or.inr ⟨lexer, ?_⟩
    have hM2 : valid_symbols TokenType.CHUNK_OPTION_MARKER = false := by
      simpa using hM
    rw [hM2]
    simp

/-- The three ways a dispatcher call can end: it reports `PIPE_TABLE_START` and
the state is untouched; it reports `CHUNK_OPTION_MARKER`, at the start of a cell,
and the state is untouched; or it ends in its last block, entered with
`at_cell_start` cleared if `CHUNK_OPTION_MARKER` is a candidate. -/
theorem scan_cases (scanner : Scanner) (lexer : TSLexer) (valid_symbols : ValidSymbols) :
    ((tree_sitter_quarto_external_scanner_scan scanner lexer valid_symbols).1 = true ∧
      (tree_sitter_quarto_external_scanner_scan scanner lexer valid_symbols).2.2.result_symbol
        = some TokenType.PIPE_TABLE_START ∧
      valid_symbols TokenType.PIPE_TABLE_START = true ∧
      (tree_sitter_quarto_external_scanner_scan scanner lexer valid_symbols).2.1 = scanner) ∨
    ((tree_sitter_quarto_external_scanner_scan scanner lexer valid_symbols).1 = true ∧
      (tree_sitter_quarto_external_scanner_scan scanner lexer valid_symbols).2.2.result_symbol
        = some TokenType.CHUNK_OPTION_MARKER ∧
      valid_symbols TokenType.CHUNK_OPTION_MARKER = true ∧
      (tree_sitter_quarto_external_scanner_scan scanner lexer valid_symbols).2.1 = scanner ∧
      scanner.in_executable_cell = true ∧ scanner.at_cell_start = true) ∨
    (∃ lx : TSLexer,
      tree_sitter_quarto_external_scanner_scan scanner lexer valid_symbols
        = scan_boundary_stage
            { scanner with
              at_cell_start :=
                scanner.at_cell_start && !valid_symbols TokenType.CHUNK_OPTION_MARKER }
            lx valid_symbols) := by
  simp only [tree_sitter_quarto_external_scanner_scan]
  generalize (if valid_symbols TokenType.CHUNK_OPTION_MARKER = true then lexer
    else skip_whitespace lexer) = lx
  simp only [scan_table_stage]
  split_ifs with hP hT
  · exact Or.inl ⟨rfl, rfl, hP, rfl⟩
  · exact Or.inr (scan_marker_stage_cases scanner _ valid_symbols)
  · exact Or.inr (scan_marker_stage_cases scanner _ valid_symbols)

/-- The invariant of the scanner state is kept by every dispatcher call. -/
theorem scan_invariant (scanner : Scanner) (lexer : TSLexer) (valid_symbols : ValidSymbols)
    (h1 : 0 < scanner.fence_length ↔ scanner.in_executable_cell = true)
    (h2 : scanner.at_cell_start = true → scanner.in_executable_cell = true) :
    (0 < (tree_sitter_quarto_external_scanner_scan scanner lexer
            valid_symbols).2.1.fence_length ↔
      (tree_sitter_quarto_external_scanner_scan scanner lexer
            valid_symbols).2.1.in_executable_cell = true) ∧
    ((tree_sitter_quarto_external_scanner_scan scanner lexer
            valid_symbols).2.1.at_cell_start = true →
      (tree_sitter_quarto_external_scanner_scan scanner lexer
            valid_symbols).2.1.in_executable_cell = true) := by
  rcases scan_cases scanner lexer valid_symbols with h | h | ⟨lx, h⟩
  · rw [h.2.2.2]; exact ⟨h1, h2⟩
  · rw [h.2.2.2.1]; exact ⟨h1, h2⟩
  · rw [h]
    rcases scan_boundary_stage_cases
      { scanner with
        at_cell_start :=
          scanner.at_cell_start && !valid_symbols TokenType.CHUNK_OPTION_MARKER }
      lx valid_symbols with g | g | g
    · rw [g.2]
      refine ⟨h1, ?_⟩
      intro ha
      simp only [Bool.and_eq_true] at ha
      exact h2 ha.1
    · obtain ⟨k, hk, hs⟩ := g.2.2.2.2
      rw [hs]
      simp only [and_true, iff_true, implies_true]
      omega
    · rw [g.2.2.2.2]
      simp

/-! ## State invariant -/

/-- C11: state invariant. In every scanner state reachable from the zero state by
dispatcher calls on arbitrary cursors and candidate sets, `fence_length > 0` if
and only if `in_executable_cell` is true, and `at_cell_start` is true only if
`in_executable_cell` is true. -/
theorem state_invariant (scanner : Scanner) (h : Reachable scanner) :
    (0 < scanner.fence_length ↔ scanner.in_executable_cell = true) ∧
    (scanner.at_cell_start = true → scanner.in_executable_cell = true) := by
  induction h with
  | create => simp [tree_sitter_quarto_external_scanner_create]
  | scan scanner lexer valid_symbols _ ih =>
    exact scan_invariant scanner lexer valid_symbols ih.1 ih.2

/-- Witness of C11: the state after an opening fence of four backticks and a line
of code. -/
theorem state_invariant_witness :
    (0 < (tree_sitter_quarto_external_scanner_scan
          (tree_sitter_quarto_external_scanner_scan
            tree_sitter_quarto_external_scanner_create
            (lexerOn (codePoints "````{r}")) (validSet false true true)).2.1
          (lexerOn (codePoints "x <- 1")) (validSet false true true)).2.1.fence_length ↔
      (tree_sitter_quarto_external_scanner_scan
          (tree_sitter_quarto_external_scanner_scan
            tree_sitter_quarto_external_scanner_create
            (lexerOn (codePoints "````{r}")) (validSet false true true)).2.1
          (lexerOn (codePoints "x <- 1")) (validSet false true true)).2.1.in_executable_cell
        = true) ∧
    ((tree_sitter_quarto_external_scanner_scan
          (tree_sitter_quarto_external_scanner_scan
            tree_sitter_quarto_external_scanner_create
            (lexerOn (codePoints "````{r}")) (validSet false true true)).2.1
          (lexerOn (codePoints "x <- 1")) (validSet false true true)).2.1.at_cell_start
        = true →
      (tree_sitter_quarto_external_scanner_scan
          (tree_sitter_quarto_external_scanner_scan
            tree_sitter_quarto_external_scanner_create
            (lexerOn (codePoints "````{r}")) (validSet false true true)).2.1
          (lexerOn (codePoints "x <- 1")) (validSet false true true)).2.1.in_executable_cell
        = true) :=
  state_invariant _
    (Reachable.scan _ _ _ (Reachable.scan _ _ _ Reachable.create))

/-! ## Effects of a dispatcher call on the state -/

/-- C13: marker failure clears `at_cell_start`. With `CHUNK_OPTION_MARKER` a
candidate, a dispatcher call that reports neither `PIPE_TABLE_START` nor
`CHUNK_OPTION_MARKER` has ended in its last block, entered with `at_cell_start`
already false; hence, if the call reports failure, the state after it is the
state before it with `at_cell_start` false, and if `at_cell_start` is true after
it, the call has reported `CELL_BOUNDARY` for an opening fence: the cursor stands
in front of `{` and the state is the start of a cell. -/
theorem marker_failure_clears_cell_start (scanner : Scanner) (lexer : TSLexer)
    (valid_symbols : ValidSymbols)
    (hM : valid_symbols TokenType.CHUNK_OPTION_MARKER = true)
    (hN : ¬ ((tree_sitter_quarto_external_scanner_scan scanner lexer valid_symbols).1 = true ∧
      ((tree_sitter_quarto_external_scanner_scan scanner lexer
            valid_symbols).2.2.result_symbol = some TokenType.PIPE_TABLE_START ∨
        (tree_sitter_quarto_external_scanner_scan scanner lexer
            valid_symbols).2.2.result_symbol = some TokenType.CHUNK_OPTION_MARKER))) :
    (∃ lx : TSLexer,
      tree_sitter_quarto_external_scanner_scan scanner lexer valid_symbols
        = scan_boundary_stage { scanner with at_cell_start := false } lx valid_symbols) ∧
    ((tree_sitter_quarto_external_scanner_scan scanner lexer valid_symbols).1 = false →
      (tree_sitter_quarto_external_scanner_scan scanner lexer valid_symbols).2.1
        = { scanner with at_cell_start := false }) ∧
    ((tree_sitter_quarto_external_scanner_scan scanner lexer
          valid_symbols).2.1.at_cell_start = true →
      (tree_sitter_quarto_external_scanner_scan scanner lexer valid_symbols).1 = true ∧
      (tree_sitter_quarto_external_scanner_scan scanner lexer valid_symbols).2.2.result_symbol
        = some TokenType.CELL_BOUNDARY ∧
      lookahead (tree_sitter_quarto_external_scanner_scan scanner lexer valid_symbols).2.2
        = 123 ∧
      ∃ k, 3 ≤ k ∧
        (tree_sitter_quarto_external_scanner_scan scanner lexer valid_symbols).2.1
          = { in_executable_cell := true, at_cell_start := true, fence_length := k }) := by
  rcases scan_cases scanner lexer valid_symbols with h | h | ⟨lx, h⟩
  · exact absurd ⟨h.1, Or.inl h.2.1⟩ hN
  · exact absurd ⟨h.1, Or.inr h.2.1⟩ hN
  · simp only [hM, Bool.not_true, Bool.and_false] at h
    rw [h]
    refine ⟨⟨lx, rfl⟩, ?_, ?_⟩
    · intro hf
      rcases scan_boundary_stage_cases { scanner with at_cell_start := false } lx
        valid_symbols with g | g | g
      · exact g.2
      · rw [g.1] at hf; simp at hf
      · rw [g.1] at hf; simp at hf
    · intro ha
      rcases scan_boundary_stage_cases { scanner with at_cell_start := false } lx
        valid_symbols with g | g | g
      · rw [g.2] at ha; simp at ha
      · exact ⟨g.1, g.2.2.1, g.2.2.2.1, g.2.2.2.2⟩
      · rw [g.2.2.2.2] at ha; simp at ha

/-- Witness of C13: a line of code at the start of a cell, with
`CHUNK_OPTION_MARKER` and `CELL_BOUNDARY` candidates. -/
theorem marker_failure_clears_cell_start_witness :
    (tree_sitter_quarto_external_scanner_scan
        { in_executable_cell := true, at_cell_start := true, fence_length := 3 }
        (lexerOn (codePoints "x <- 1")) (validSet false true true)).2.1
      = { in_executable_cell := true, at_cell_start := false, fence_length := 3 } :=
  (marker_failure_clears_cell_start
    { in_executable_cell := true, at_cell_start := true, fence_length := 3 }
    (lexerOn (codePoints "x <- 1")) (validSet false true true) rfl (by decide)).2.1
    (by decide)

/-- C14, as stated, fails: at the start of a cell, with `CHUNK_OPTION_MARKER` the
only candidate, the dispatcher reports failure on a line of code and yet leaves
`at_cell_start` false where it was true. -/
theorem failed_scan_changes_state :
    (tree_sitter_quarto_external_scanner_scan
        { in_executable_cell := true, at_cell_start := true, fence_length := 3 }
        (lexerOn (codePoints "x <- 1")) (validSet false true false)).1 = false ∧
    (tree_sitter_quarto_external_scanner_scan
        { in_executable_cell := true, at_cell_start := true, fence_length := 3 }
        (lexerOn (codePoints "x <- 1")) (validSet false true false)).2.1
      = { in_executable_cell := true, at_cell_start := false, fence_length := 3 } ∧
    (tree_sitter_quarto_external_scanner_scan
        { in_executable_cell := true, at_cell_start := true, fence_length := 3 }
        (lexerOn (codePoints "x <- 1")) (validSet false true false)).2.1
      ≠ { in_executable_cell := true, at_cell_start := true, fence_length := 3 } := by
  refine ⟨?_, ?_, ?_⟩ <;> decide

/-- C14, amended: a dispatcher call that reports failure leaves
`in_executable_cell` and `fence_length` as they were; it leaves `at_cell_start`
as it was when `CHUNK_OPTION_MARKER` is not a candidate, and false when
`CHUNK_OPTION_MARKER` is a candidate. -/
theorem failed_scan_state (scanner : Scanner) (lexer : TSLexer)
    (valid_symbols : ValidSymbols)
    (hf : (tree_sitter_quarto_external_scanner_scan scanner lexer valid_symbols).1 = false) :
    (tree_sitter_quarto_external_scanner_scan scanner lexer valid_symbols).2.1
      = { in_executable_cell := scanner.in_executable_cell
          at_cell_start :=
            scanner.at_cell_start && !valid_symbols TokenType.CHUNK_OPTION_MARKER
          fence_length := scanner.fence_length } := by
  rcases scan_cases scanner lexer valid_symbols with h | h | ⟨lx, h⟩
  · rw [h.1] at hf; simp at hf
  · rw [h.1] at hf; simp at hf
  · rw [h] at hf ⊢
    rcases scan_boundary_stage_cases
      { scanner with
        at_cell_start :=
          scanner.at_cell_start && !valid_symbols TokenType.CHUNK_OPTION_MARKER }
      lx valid_symbols with g | g | g
    · exact g.2
    · rw [g.1] at hf; simp at hf
    · rw [g.1] at hf; simp at hf

/-- Witness of C14, amended: a line of code at the start of a cell, once with
`CELL_BOUNDARY` the only candidate and once with `CHUNK_OPTION_MARKER` too. -/
theorem failed_scan_state_witness :
    (tree_sitter_quarto_external_scanner_scan
        { in_executable_cell := true, at_cell_start := true, fence_length := 3 }
        (lexerOn (codePoints "x <- 1")) (validSet false false true)).2.1
      = { in_executable_cell := true, at_cell_start := true, fence_length := 3 } ∧
    (tree_sitter_quarto_external_scanner_scan
        { in_executable_cell := true, at_cell_start := true, fence_length := 3 }
        (lexerOn (codePoints "x <- 1")) (validSet false true true)).2.1
      = { in_executable_cell := true, at_cell_start := false, fence_length := 3 } :=
  ⟨failed_scan_state
      { in_executable_cell := true, at_cell_start := true, fence_length := 3 }
      (lexerOn (codePoints "x <- 1")) (validSet false false true) (by decide),
    failed_scan_state
      { in_executable_cell := true, at_cell_start := true, fence_length := 3 }
      (lexerOn (codePoints "x <- 1")) (validSet false true true) (by decide)⟩

/-! ## Fixed-priority dispatch -/

/-- The last block of the dispatcher is the attempt list for `CELL_BOUNDARY`. -/
theorem scan_boundary_stage_eq_spec (scanner : Scanner) (lexer : TSLexer)
    (valid_symbols : ValidSymbols) :
    spec_first_success [TokenType.CELL_BOUNDARY] valid_symbols scanner lexer
      = scan_boundary_stage scanner lexer valid_symbols := by
  simp only [spec_first_success, spec_attempt, scan_boundary_stage]

/-- The marker block and what follows it is the attempt list for
`CHUNK_OPTION_MARKER` and `CELL_BOUNDARY`. -/
theorem scan_marker_stage_eq_spec (scanner : Scanner) (lexer : TSLexer)
    (valid_symbols : ValidSymbols) :
    spec_first_success [TokenType.CHUNK_OPTION_MARKER, TokenType.CELL_BOUNDARY]
        valid_symbols scanner lexer
      = scan_marker_stage scanner lexer valid_symbols := by
  rw [spec_first_success]
  simp only [scan_boundary_stage_eq_spec, scan_marker_stage, spec_attempt]
  by_cases hM : valid_symbols TokenType.CHUNK_OPTION_MARKER = true
  · by_cases hR : (scan_chunk_option_marker scanner lexer).1 = true
    · simp only [hM, hR, if_true]
    · simp only [hM, hR, if_true, if_false, Bool.false_eq_true]
  · simp only [hM, if_false, Bool.false_eq_true]

/-- The dispatcher of the source is the attempt list of the specification. -/
theorem scan_eq_spec_dispatch (scanner : Scanner) (lexer : TSLexer)
    (valid_symbols : ValidSymbols) :
    tree_sitter_quarto_external_scanner_scan scanner lexer valid_symbols
      = spec_dispatch scanner lexer valid_symbols := by
  simp only [tree_sitter_quarto_external_scanner_scan, spec_dispatch]
  generalize (if valid_symbols TokenType.CHUNK_OPTION_MARKER = true then lexer
    else skip_whitespace lexer) = lx
  rw [spec_first_success]
  simp only [scan_marker_stage_eq_spec, scan_table_stage, spec_attempt]

/-- A failing attempt list has tried every candidate of the list, each on the
state and the cursor left by the blocks before it, and none has matched. -/
theorem spec_first_success_failure (kinds : List TokenType) (valid_symbols : ValidSymbols) :
    ∀ (scanner : Scanner) (lexer : TSLexer),
      (spec_first_success kinds valid_symbols scanner lexer).1 = false →
      match kinds with
      | [] => True
      | kind :: rest =>
        (valid_symbols kind = true → (spec_attempt kind scanner lexer).1 = false) ∧
        (spec_first_success rest valid_symbols
          (spec_after kind valid_symbols scanner lexer).1
          (spec_after kind valid_symbols scanner lexer).2).1 = false := by
  intro scanner lexer h
  cases kinds with
  | nil => trivial
  | cons kind rest =>
    simp only [spec_first_success] at h
    by_cases hv : valid_symbols kind = true
    · by_cases ha : (spec_attempt kind scanner lexer).1 = true
      · simp [hv, ha] at h
      · simp only [hv, ha, if_true, if_false, Bool.false_eq_true] at h
        refine ⟨fun _ => Bool.eq_false_iff.mpr ha, ?_⟩
        simp only [spec_after, hv, if_true]
        exact h
    · simp only [hv, if_false, Bool.false_eq_true] at h
      refine ⟨fun hc => absurd hc hv, ?_⟩
      simp only [spec_after, hv, if_false, Bool.false_eq_true]
      exact h

/-- C12: fixed-priority dispatch. The dispatcher is the attempt list of the
specification: leading whitespace is skipped unless `CHUNK_OPTION_MARKER` is a
candidate, then the candidates are tried in the order table, marker, boundary,
each on the state and cursor left by the attempts before it, and the first
success is reported. In particular, whenever `PIPE_TABLE_START` is a candidate
and the pipe-table recognizer succeeds, the call reports `PIPE_TABLE_START` and
leaves the state as it was; and a call that reports failure has tried every
candidate recognizer, and none has matched. -/
theorem fixed_priority_dispatch (scanner scanner2 : Scanner) (lexer lexer2 : TSLexer)
    (valid_symbols valid2 : ValidSymbols)
    (hP : valid_symbols TokenType.PIPE_TABLE_START = true)
    (hT : (scan_pipe_table_start
      (if valid_symbols TokenType.CHUNK_OPTION_MARKER then lexer
        else skip_whitespace lexer)).1 = true)
    (hF : (tree_sitter_quarto_external_scanner_scan scanner2 lexer2 valid2).1 = false) :
    (∀ (s : Scanner) (l : TSLexer) (v : ValidSymbols),
      tree_sitter_quarto_external_scanner_scan s l v = spec_dispatch s l v) ∧
    ((tree_sitter_quarto_external_scanner_scan scanner lexer valid_symbols).1 = true ∧
      (tree_sitter_quarto_external_scanner_scan scanner lexer valid_symbols).2.2.result_symbol
        = some TokenType.PIPE_TABLE_START ∧
      (tree_sitter_quarto_external_scanner_scan scanner lexer valid_symbols).2.1 = scanner) ∧
    ((valid2 TokenType.PIPE_TABLE_START = true →
        (spec_attempt TokenType.PIPE_TABLE_START scanner2
          (if valid2 TokenType.CHUNK_OPTION_MARKER then lexer2
            else skip_whitespace lexer2)).1 = false) ∧
      (valid2 TokenType.CHUNK_OPTION_MARKER = true →
        (spec_attempt TokenType.CHUNK_OPTION_MARKER
          (spec_after TokenType.PIPE_TABLE_START valid2 scanner2
            (if valid2 TokenType.CHUNK_OPTION_MARKER then lexer2
              else skip_whitespace lexer2)).1
          (spec_after TokenType.PIPE_TABLE_START valid2 scanner2
            (if valid2 TokenType.CHUNK_OPTION_MARKER then lexer2
              else skip_whitespace lexer2)).2).1 = false) ∧
      (valid2 TokenType.CELL_BOUNDARY = true →
        (spec_attempt TokenType.CELL_BOUNDARY
          (spec_after TokenType.CHUNK_OPTION_MARKER valid2
            (spec_after TokenType.PIPE_TABLE_START valid2 scanner2
              (if valid2 TokenType.CHUNK_OPTION_MARKER then lexer2
                else skip_whitespace lexer2)).1
            (spec_after TokenType.PIPE_TABLE_START valid2 scanner2
              (if valid2 TokenType.CHUNK_OPTION_MARKER then lexer2
                else skip_whitespace lexer2)).2).1
          (spec_after TokenType.CHUNK_OPTION_MARKER valid2
            (spec_after TokenType.PIPE_TABLE_START valid2 scanner2
              (if valid2 TokenType.CHUNK_OPTION_MARKER then lexer2
                else skip_whitespace lexer2)).1
            (spec_after TokenType.PIPE_TABLE_START valid2 scanner2
              (if valid2 TokenType.CHUNK_OPTION_MARKER then lexer2
                else skip_whitespace lexer2)).2).2).1 = false)) := by
  refine ⟨scan_eq_spec_dispatch, ?_, ?_⟩
  · simp only [tree_sitter_quarto_external_scanner_scan, scan_table_stage, hP, hT, if_true,
      and_self]
  · rw [scan_eq_spec_dispatch, spec_dispatch] at hF
    have h1 := spec_first_success_failure _ valid2 scanner2 _ hF
    have h2 := spec_first_success_failure _ valid2 _ _ h1.2
    have h3 := spec_first_success_failure _ valid2 _ _ h2.2
    exact ⟨h1.1, h2.1, h3.1⟩

/-- Witness of C12: at the start of a cell the text `#| a`, line feed, `|---` would
be accepted by the marker recognizer, but with `PIPE_TABLE_START` a candidate
too it is reported as `PIPE_TABLE_START`; and a line of code on which all three
candidates fail. -/
theorem fixed_priority_dispatch_witness :
    (scan_chunk_option_marker
        { in_executable_cell := true, at_cell_start := true, fence_length := 3 }
        (lexerOn (codePoints "#| a\n|---"))).1 = true ∧
    (tree_sitter_quarto_external_scanner_scan
        { in_executable_cell := true, at_cell_start := true, fence_length := 3 }
        (lexerOn (codePoints "#| a\n|---")) (validSet true true false)).1 = true ∧
    (tree_sitter_quarto_external_scanner_scan
        { in_executable_cell := true, at_cell_start := true, fence_length := 3 }
        (lexerOn (codePoints "#| a\n|---")) (validSet true true false)).2.2.result_symbol
      = some TokenType.PIPE_TABLE_START ∧
    (tree_sitter_quarto_external_scanner_scan
        { in_executable_cell := true, at_cell_start := true, fence_length := 3 }
        (lexerOn (codePoints "#| a\n|---")) (validSet true true false)).2.1
      = { in_executable_cell := true, at_cell_start := true, fence_length := 3 } :=
  ⟨by decide,
    (fixed_priority_dispatch
      { in_executable_cell := true, at_cell_start := true, fence_length := 3 }
      { in_executable_cell := true, at_cell_start := true, fence_length := 3 }
      (lexerOn (codePoints "#| a\n|---")) (lexerOn (codePoints "x <- 1"))
      (validSet true true false) (validSet true true true)
      (by decide) (by decide) (by decide)).2.1⟩

/-! ## Checkpoint truncation -/

/-- C19: checkpoint truncation of `fence_length`. For every scanner state,
deserializing what serialize has written gives the state with `fence_length`
replaced by `fence_length mod 65536`, both flags preserved; the round trip is
therefore the identity exactly on the states with `fence_length <= 65535`, and a
state inside a cell whose `fence_length` is a positive multiple of 65536 comes
back inside a cell with `fence_length = 0`. -/
theorem checkpoint_truncation (prior scanner : Scanner) (buffer : Buffer) (k : Nat) :
    tree_sitter_quarto_external_scanner_deserialize prior
        (tree_sitter_quarto_external_scanner_serialize scanner buffer).1
        (tree_sitter_quarto_external_scanner_serialize scanner buffer).2
      = { in_executable_cell := scanner.in_executable_cell
          at_cell_start := scanner.at_cell_start
          fence_length := scanner.fence_length % 65536 } ∧
    (tree_sitter_quarto_external_scanner_deserialize prior
        (tree_sitter_quarto_external_scanner_serialize scanner buffer).1
        (tree_sitter_quarto_external_scanner_serialize scanner buffer).2 = scanner ↔
      scanner.fence_length ≤ 65535) ∧
    tree_sitter_quarto_external_scanner_deserialize prior
        (tree_sitter_quarto_external_scanner_serialize
          { in_executable_cell := true, at_cell_start := scanner.at_cell_start,
            fence_length := 65536 * (k + 1) } buffer).1
        (tree_sitter_quarto_external_scanner_serialize
          { in_executable_cell := true, at_cell_start := scanner.at_cell_start,
            fence_length := 65536 * (k + 1) } buffer).2
      = { in_executable_cell := true, at_cell_start := scanner.at_cell_start,
          fence_length := 0 } := by
  refine ⟨deserialize_serialize prior scanner buffer, ?_, ?_⟩
  · rw [deserialize_serialize]
    obtain ⟨a, b, n⟩ := scanner
    simp only [Scanner.mk.injEq, true_and]
    omega
  · rw [deserialize_serialize]
    simp only [Scanner.mk.injEq, true_and]
    omega

/-! ## Opening fences and the range of the run counter -/

/-- A run of backticks whose length, counted modulo `2 ^ 32`, is below 3 is no
fence: the cell-boundary recognizer fails behind the run and leaves the state
alone. -/
theorem scan_cell_boundary_short (scanner : Scanner) (n : Nat) (rest : List Nat)
    (hn : n % 2 ^ 32 < 3) (h96 : peek rest ≠ 96)
    (pos skipped : Nat) (marked : Option Nat) (sym : Option TokenType) :
    scan_cell_boundary scanner ⟨List.replicate n 96 ++ rest, pos, skipped, marked, sym⟩
      = (false, scanner, ⟨rest, pos + n, skipped, marked, sym⟩) := by
  have hcount := count_backticks_run rest h96 n (List.replicate n 96 ++ rest).length 0 pos
    skipped marked sym (by simp) (by norm_num)
  simp only [Nat.zero_add] at hcount
  simp only [scan_cell_boundary, hcount, hn, if_true]

/-- C18, as stated, fails: a run of `2 ^ 32` backticks followed by `{` is a run of
at least 3 backticks, but the 32-bit counter has wrapped to 0 at its end, and the
cell-boundary recognizer fails on it. -/
theorem long_fence_not_opened :
    3 ≤ 4294967296 ∧
    (scan_cell_boundary tree_sitter_quarto_external_scanner_create
        (lexerOn (List.replicate 4294967296 96 ++ [123]))).1 = false ∧
    (scan_cell_boundary tree_sitter_quarto_external_scanner_create
        (lexerOn (List.replicate 4294967296 96 ++ [123]))).2.1
      = tree_sitter_quarto_external_scanner_create := by
  have h := scan_cell_boundary_short tree_sitter_quarto_external_scanner_create 4294967296
    [123] (by norm_num) (by simp) 0 0 none none
  change scan_cell_boundary tree_sitter_quarto_external_scanner_create
    (lexerOn (List.replicate 4294967296 96 ++ [123])) = _ at h
  rw [h]
  exact ⟨by norm_num, rfl, rfl⟩

/-- C18, amended: for every prior state and every run length `n` with
`3 <= n < 2 ^ 32`, the range of the 32-bit run counter, the cell-boundary
recognizer applied to `n` backticks, any number of spaces and tabs and `{`
succeeds, sets `in_executable_cell = true`, `at_cell_start = true` and
`fence_length = n`, and commits the token boundary in front of the `{`; and on
every input whose leading run of backticks is shorter than 3 it fails and leaves
the state as it was. -/
theorem opening_fence (prior prior2 : Scanner) (n k : Nat) (ws rest rest2 : List Nat)
    (lexer lexer2 : TSLexer)
    (hn : 3 ≤ n) (hn32 : n < 2 ^ 32) (hws : ∀ c ∈ ws, c = 32 ∨ c = 9)
    (hinput : lexer.input = List.replicate n 96 ++ (ws ++ 123 :: rest))
    (hk : k < 3) (h96 : peek rest2 ≠ 96)
    (hinput2 : lexer2.input = List.replicate k 96 ++ rest2) :
    scan_cell_boundary prior lexer
      = (true,
          { in_executable_cell := true, at_cell_start := true, fence_length := n },
          { input := 123 :: rest
            pos := lexer.pos + n + ws.length
            skipped := lexer.skipped + ws.length
            marked := some (lexer.pos + n + ws.length)
            result_symbol := lexer.result_symbol }) ∧
    (scan_cell_boundary prior2 lexer2).1 = false ∧
    (scan_cell_boundary prior2 lexer2).2.1 = prior2 := by
  obtain ⟨input, pos, skipped, marked, sym⟩ := lexer
  obtain ⟨input2, pos2, skipped2, marked2, sym2⟩ := lexer2
  simp only at hinput hinput2
  subst hinput hinput2
  have hmod : n % 2 ^ 32 = n := Nat.mod_eq_of_lt hn32
  have hopen := scan_cell_boundary_open prior n ws rest (by omega) hws pos skipped marked sym
  rw [hmod] at hopen
  have hshort := scan_cell_boundary_short prior2 k rest2
    (by rw [Nat.mod_eq_of_lt (by omega)]; exact hk) h96 pos2 skipped2 marked2 sym2
  rw [hopen, hshort]
  exact ⟨rfl, rfl, rfl⟩

/-- Witness of C18, amended: a fence of four backticks and a space reopened
inside a cell, and an inline run of two backticks. -/
theorem opening_fence_witness :
    scan_cell_boundary
        { in_executable_cell := true, at_cell_start := false, fence_length := 3 }
        (lexerOn (codePoints "```` {r}"))
      = (true,
          { in_executable_cell := true, at_cell_start := true, fence_length := 4 },
          { input := codePoints "{r}", pos := 5, skipped := 1, marked := some 5,
            result_symbol := none }) ∧
    (scan_cell_boundary
        { in_executable_cell := true, at_cell_start := false, fence_length := 3 }
        (lexerOn (codePoints "``x``"))).1 = false ∧
    (scan_cell_boundary
        { in_executable_cell := true, at_cell_start := false, fence_length := 3 }
        (lexerOn (codePoints "``x``"))).2.1
      = { in_executable_cell := true, at_cell_start := false, fence_length := 3 } :=
  opening_fence
    { in_executable_cell := true, at_cell_start := false, fence_length := 3 }
    { in_executable_cell := true, at_cell_start := false, fence_length := 3 }
    4 2 [32] (codePoints "r\x7d") (codePoints "x``")
    (lexerOn (codePoints "```` {r}")) (lexerOn (codePoints "``x``"))
    (by decide) (by norm_num) (by decide) (by decide) (by decide) (by decide) (by decide)

/-! ## A failed marker attempt keeps the `#` -/

/-- At the start of a cell, `#` followed by a code point other than `|` makes the
chunk-option-marker recognizer fail behind the `#`. -/
theorem scan_chunk_option_marker_hash (fence : Nat) (rest : List Nat) (h124 : peek rest ≠ 124)
    (pos skipped : Nat) (marked : Option Nat) (sym : Option TokenType) :
    scan_chunk_option_marker
        { in_executable_cell := true, at_cell_start := true, fence_length := fence }
        ⟨35 :: rest, pos, skipped, marked, sym⟩
      = (false,
          { in_executable_cell := true, at_cell_start := true, fence_length := fence },
          ⟨rest, pos + 1, skipped, marked, sym⟩) := by
  simp only [scan_chunk_option_marker, Bool.not_true, Bool.or_self, Bool.false_eq_true,
    if_false, lookahead_mk, peek_cons, if_true, advance_cons, h124]

/-- What a failing marker attempt does to the cursor: one code point is consumed
when both gates are true and the text starts with `#`, none otherwise. -/
theorem scan_chunk_option_marker_failure (scanner : Scanner) (lexer : TSLexer)
    (hf : (scan_chunk_option_marker scanner lexer).1 = false) :
    (scan_chunk_option_marker scanner lexer).2.2
      = if scanner.in_executable_cell = true ∧ scanner.at_cell_start = true ∧
            lookahead lexer = 35 then
          advance lexer false
        else lexer := by
  by_cases hg : scanner.in_executable_cell = true ∧ scanner.at_cell_start = true
  · obtain ⟨hi, ha⟩ := hg
    simp only [scan_chunk_option_marker, hi, ha, Bool.not_true, Bool.or_self,
      Bool.false_eq_true, if_false, true_and] at hf ⊢
    by_cases h1 : lookahead lexer = 35
    · by_cases h2 : lookahead (advance lexer false) = 124
      · simp [h1, h2] at hf
      · simp only [h1, h2, if_true, if_false]
    · simp only [h1, if_false]
  · have hgate : (!scanner.in_executable_cell || !scanner.at_cell_start) = true := by
      cases hi : scanner.in_executable_cell <;> cases ha : scanner.at_cell_start <;>
        simp [hi, ha] at hg ⊢
    have hno : ¬ (scanner.in_executable_cell = true ∧ scanner.at_cell_start = true ∧
        lookahead lexer = 35) := fun h => hg ⟨h.1, h.2.1⟩
    simp only [scan_chunk_option_marker, hgate, if_true, hno, if_false]

/-- The dispatcher, with `CHUNK_OPTION_MARKER` and `CELL_BOUNDARY` its candidates, at
the start of a cell on `#` followed by a run of backticks: the marker attempt
fails behind the `#`, `at_cell_start` is cleared and the cell-boundary recognizer
runs on the run. -/
theorem scan_hash_fence (fence n : Nat) (rest : List Nat) (hn : 0 < n)
    (pos skipped : Nat) (marked : Option Nat) (sym : Option TokenType) :
    tree_sitter_quarto_external_scanner_scan
        { in_executable_cell := true, at_cell_start := true, fence_length := fence }
        ⟨35 :: (List.replicate n 96 ++ rest), pos, skipped, marked, sym⟩
        (validSet false true true)
      = scan_boundary_stage
          { in_executable_cell := true, at_cell_start := false, fence_length := fence }
          ⟨List.replicate n 96 ++ rest, pos + 1, skipped, marked, sym⟩
          (validSet false true true) := by
  have hpeek : peek (List.replicate n 96 ++ rest) ≠ 124 := by
    rw [peek_replicate_append n 96 rest hn]; norm_num
  have hm := scan_chunk_option_marker_hash fence (List.replicate n 96 ++ rest) hpeek pos
    skipped marked sym
  simp only [tree_sitter_quarto_external_scanner_scan, scan_table_stage, scan_marker_stage,
    validSet, Bool.false_eq_true, if_false, if_true, hm]

/-- C20, as stated, fails: at the start of a cell opened by three backticks, with
`CHUNK_OPTION_MARKER` and `CELL_BOUNDARY` the candidates, on `#` followed by
`2 ^ 32` backticks and the end of the input the dispatcher reports failure and
the cell stays open, although the run has at least three backticks and at least
as many as the open fence: the 32-bit counter has wrapped to 0. -/
theorem hash_long_fence_not_closed :
    (3 ≤ 4294967296) ∧
    (tree_sitter_quarto_external_scanner_scan
        { in_executable_cell := true, at_cell_start := true, fence_length := 3 }
        (lexerOn (35 :: (List.replicate 4294967296 96 ++ []))) (validSet false true true)).1
      = false ∧
    (tree_sitter_quarto_external_scanner_scan
        { in_executable_cell := true, at_cell_start := true, fence_length := 3 }
        (lexerOn (35 :: (List.replicate 4294967296 96 ++ []))) (validSet false true true)).2.1
      = { in_executable_cell := true, at_cell_start := false, fence_length := 3 } := by
  have h := scan_hash_fence 3 4294967296 [] (by norm_num) 0 0 none none
  have hs := scan_cell_boundary_short
    { in_executable_cell := true, at_cell_start := false, fence_length := 3 } 4294967296 []
    (by norm_num) (by simp) (0 + 1) 0 none none
  change tree_sitter_quarto_external_scanner_scan _
    (lexerOn (35 :: (List.replicate 4294967296 96 ++ []))) _ = _ at h
  rw [h]
  refine ⟨by norm_num, ?_, ?_⟩ <;>
    simp only [scan_boundary_stage, validSet, if_true, hs, Bool.false_eq_true, if_false]

/-- C20, amended: for every state at the start of a cell with `fence_length = m`
and every `n` with `3 <= n < 2 ^ 32`, the range of the 32-bit run counter, and
`n >= m`, a dispatcher call with candidates `CHUNK_OPTION_MARKER` and
`CELL_BOUNDARY` on `#` followed by `n` backticks, optional spaces and tabs and a
line terminator or the end of the input reports `CELL_BOUNDARY` and resets the
state to zero, the boundary being committed behind the run and the spaces. In
general a failing marker attempt consumes exactly one code point when both
gates are true and the input starts with `#`, and none otherwise. -/
theorem hash_line_closes_cell (m n : Nat) (ws rest : List Nat) (lexer lexer2 : TSLexer)
    (scanner2 : Scanner)
    (hn : 3 ≤ n) (hn32 : n < 2 ^ 32) (hmn : m ≤ n) (hws : ∀ c ∈ ws, c = 32 ∨ c = 9)
    (hrest : rest = [] ∨ peek rest = 10 ∨ peek rest = 13)
    (hinput : lexer.input = 35 :: (List.replicate n 96 ++ (ws ++ rest)))
    (hf : (scan_chunk_option_marker scanner2 lexer2).1 = false) :
    tree_sitter_quarto_external_scanner_scan
        { in_executable_cell := true, at_cell_start := true, fence_length := m }
        lexer (validSet false true true)
      = (true,
          { in_executable_cell := false, at_cell_start := false, fence_length := 0 },
          { input := rest
            pos := lexer.pos + 1 + n + ws.length
            skipped := lexer.skipped + ws.length
            marked := some (lexer.pos + 1 + n + ws.length)
            result_symbol := some TokenType.CELL_BOUNDARY }) ∧
    (scan_chunk_option_marker scanner2 lexer2).2.2
      = (if scanner2.in_executable_cell = true ∧ scanner2.at_cell_start = true ∧
            lookahead lexer2 = 35 then
          advance lexer2 false
        else lexer2) := by
  refine ⟨?_, scan_chunk_option_marker_failure scanner2 lexer2 hf⟩
  obtain ⟨input, pos, skipped, marked, sym⟩ := lexer
  simp only at hinput
  subst hinput
  have hrest2 : peek rest = 10 ∨ peek rest = 13 ∨ peek rest = 0 := by
    rcases hrest with h | h | h
    · right; right; rw [h]; rfl
    · left; exact h
    · right; left; exact h
  have hmod : n % 2 ^ 32 = n := Nat.mod_eq_of_lt hn32
  have hclose := scan_cell_boundary_close
    { in_executable_cell := true, at_cell_start := false, fence_length := m } n ws rest
    (by omega) hws hrest2 (pos + 1) skipped marked sym
  simp only [hmod, Bool.true_and, ge_iff_le, hmn, decide_True, if_true] at hclose
  rw [scan_hash_fence m n (ws ++ rest) (by omega)]
  simp only [scan_boundary_stage, validSet, if_true, hclose]

/-- Witness of C20, amended: inside a cell opened by three backticks, the line `#`
followed by four backticks and a line feed; and the marker attempt on `# x`. -/
theorem hash_line_closes_cell_witness :
    tree_sitter_quarto_external_scanner_scan
        { in_executable_cell := true, at_cell_start := true, fence_length := 3 }
        (lexerOn (codePoints "#````\nx")) (validSet false true true)
      = (true,
          { in_executable_cell := false, at_cell_start := false, fence_length := 0 },
          { input := codePoints "\nx", pos := 5, skipped := 0, marked := some 5,
            result_symbol := some TokenType.CELL_BOUNDARY }) ∧
    (scan_chunk_option_marker
        { in_executable_cell := true, at_cell_start := true, fence_length := 3 }
        (lexerOn (codePoints "# x"))).2.2
      = { input := codePoints " x", pos := 1, skipped := 0, marked := none,
          result_symbol := none } :=
  hash_line_closes_cell 3 4 [] (codePoints "\nx") (lexerOn (codePoints "#````\nx"))
    (lexerOn (codePoints "# x"))
    { in_executable_cell := true, at_cell_start := true, fence_length := 3 }
    (by decide) (by norm_num) (by decide) (by decide) (by decide) (by decide) (by decide)

/-! ## The cursor only moves forward, and not beyond the end -/

theorem advanced_refl (lexer : TSLexer) : Advanced lexer lexer := by
  simp [Advanced]

theorem advanced_of_drop (a b : TSLexer) (k : Nat) (hk : k ≤ a.input.length)
    (hinput : b.input = a.input.drop k) (hpos : b.pos = a.pos + k) : Advanced a b := by
  have hsub : b.pos - a.pos = k := by omega
  refine ⟨by omega, by omega, ?_⟩
  rw [hsub, hinput]

theorem advanced_trans {a b c : TSLexer} (hab : Advanced a b) (hbc : Advanced b c) :
    Advanced a c := by
  obtain ⟨h1, h2, h3⟩ := hab
  obtain ⟨g1, g2, g3⟩ := hbc
  have hlen : b.input.length = a.input.length - (b.pos - a.pos) := by
    rw [h3, List.length_drop]
  refine advanced_of_drop a c ((b.pos - a.pos) + (c.pos - b.pos)) (by omega) ?_ (by omega)
  rw [g3, h3, List.drop_drop, Nat.add_comm]

theorem advanced_advance (lexer : TSLexer) (skip : Bool) :
    Advanced lexer (advance lexer skip) := by
  obtain ⟨input, pos, skipped, marked, sym⟩ := lexer
  cases input with
  | nil => exact advanced_refl _
  | cons c rest =>
    exact advanced_of_drop _ _ 1 (by simp) (by simp [advance]) (by simp [advance])

theorem advanced_if_advance (lexer : TSLexer) (c : Prop) [Decidable c] (skip : Bool) :
    Advanced lexer (if c then advance lexer skip else lexer) := by
  split
  · exact advanced_advance lexer skip
  · exact advanced_refl lexer

theorem advanced_mark_end {a b : TSLexer} (h : Advanced a b) : Advanced a (mark_end b) := h

theorem advanced_result_symbol {a b : TSLexer} (h : Advanced a b) (sym : Option TokenType) :
    Advanced a { b with result_symbol := sym } := h

theorem skip_whitespace_loop_advanced (fuel : Nat) :
    ∀ lexer : TSLexer, Advanced lexer (skip_whitespace_loop fuel lexer) := by
  induction fuel with
  | zero => intro lexer; exact advanced_refl lexer
  | succ fuel ih =>
    intro lexer
    simp only [skip_whitespace_loop]
    split
    · exact advanced_trans (advanced_advance lexer true) (ih _)
    · exact advanced_refl lexer

theorem skip_whitespace_advanced (lexer : TSLexer) :
    Advanced lexer (skip_whitespace lexer) :=
  skip_whitespace_loop_advanced _ lexer

theorem skip_line_loop_advanced (fuel : Nat) :
    ∀ lexer : TSLexer, Advanced lexer (skip_line_loop fuel lexer) := by
  induction fuel with
  | zero => intro lexer; exact advanced_refl lexer
  | succ fuel ih =>
    intro lexer
    simp only [skip_line_loop, ite_self]
    split
    · exact advanced_trans (advanced_advance lexer false) (ih _)
    · exact advanced_refl lexer

theorem dash_loop_advanced (fuel : Nat) :
    ∀ (has_dash : Bool) (lexer : TSLexer),
      Advanced lexer (dash_loop fuel has_dash lexer).2 := by
  induction fuel with
  | zero => intro has_dash lexer; exact advanced_refl lexer
  | succ fuel ih =>
    intro has_dash lexer
    simp only [dash_loop]
    split
    · exact advanced_trans (advanced_advance lexer false) (ih _ _)
    · exact advanced_refl lexer

theorem count_backticks_advanced (fuel : Nat) :
    ∀ (fence_len : Nat) (lexer : TSLexer),
      Advanced lexer (count_backticks fuel fence_len lexer).2 := by
  induction fuel with
  | zero => intro fence_len lexer; exact advanced_refl lexer
  | succ fuel ih =>
    intro fence_len lexer
    simp only [count_backticks]
    split
    · exact advanced_trans (advanced_advance lexer false) (ih _ _)
    · exact advanced_refl lexer

theorem scan_pipe_table_start_advanced (lexer : TSLexer) :
    Advanced lexer (scan_pipe_table_start lexer).2 := by
  simp only [scan_pipe_table_start]
  have h1 := skip_line_loop_advanced lexer.input.length lexer
  generalize skip_line_loop lexer.input.length lexer = l1 at h1 ⊢
  have h2 := advanced_trans h1 (advanced_if_advance l1 (lookahead l1 = 13) false)
  generalize (if lookahead l1 = 13 then advance l1 false else l1) = l2 at h2 ⊢
  have h3 := advanced_trans h2 (advanced_if_advance l2 (lookahead l2 = 10) false)
  generalize (if lookahead l2 = 10 then advance l2 false else l2) = l3 at h3 ⊢
  have h4 := advanced_trans h3 (skip_whitespace_advanced l3)
  generalize skip_whitespace l3 = l4 at h4 ⊢
  split
  · exact h4
  · have h5 := advanced_trans (advanced_trans h4 (advanced_advance l4 false))
      (skip_whitespace_advanced (advance l4 false))
    generalize skip_whitespace (advance l4 false) = l5 at h5 ⊢
    have h6 := advanced_trans h5 (advanced_if_advance l5 (lookahead l5 = 58) false)
    generalize (if lookahead l5 = 58 then advance l5 false else l5) = l6 at h6 ⊢
    have h7 := advanced_trans h6 (dash_loop_advanced l6.input.length false l6)
    generalize (dash_loop l6.input.length false l6) = d at h7 ⊢
    exact advanced_trans h7 (advanced_if_advance d.2 (lookahead d.2 = 58) false)

theorem scan_chunk_option_marker_advanced (scanner : Scanner) (lexer : TSLexer) :
    Advanced lexer (scan_chunk_option_marker scanner lexer).2.2 := by
  simp only [scan_chunk_option_marker]
  split_ifs
  · exact advanced_refl lexer
  · exact advanced_mark_end (advanced_trans
      (advanced_trans (advanced_advance lexer false) (advanced_advance _ false))
      (skip_whitespace_advanced _))
  · exact advanced_advance lexer false
  · exact advanced_refl lexer

theorem scan_cell_boundary_advanced (scanner : Scanner) (lexer : TSLexer) :
    Advanced lexer (scan_cell_boundary scanner lexer).2.2 := by
  simp only [scan_cell_boundary]
  have h1 := count_backticks_advanced lexer.input.length 0 lexer
  generalize count_backticks lexer.input.length 0 lexer = r at h1 ⊢
  obtain ⟨k, l1⟩ := r
  simp only at h1 ⊢
  have h2 := advanced_trans h1 (skip_whitespace_advanced l1)
  have h3 := advanced_trans h2 (skip_whitespace_advanced (skip_whitespace l1))
  split_ifs
  · exact h1
  · exact advanced_mark_end h2
  · exact advanced_mark_end h3
  · exact h3
  · exact h3

theorem scan_boundary_stage_advanced (scanner : Scanner) (lexer : TSLexer)
    (valid_symbols : ValidSymbols) :
    Advanced lexer (scan_boundary_stage scanner lexer valid_symbols).2.2 := by
  simp only [scan_boundary_stage]
  split_ifs
  · exact advanced_result_symbol (scan_cell_boundary_advanced scanner lexer) _
  · exact scan_cell_boundary_advanced scanner lexer
  · exact advanced_refl lexer

theorem scan_marker_stage_advanced (scanner : Scanner) (lexer : TSLexer)
    (valid_symbols : ValidSymbols) :
    Advanced lexer (scan_marker_stage scanner lexer valid_symbols).2.2 := by
  simp only [scan_marker_stage]
  split_ifs
  · exact advanced_result_symbol (scan_chunk_option_marker_advanced scanner lexer) _
  · exact advanced_trans (scan_chunk_option_marker_advanced scanner lexer)
      (scan_boundary_stage_advanced _ _ _)
  · exact scan_boundary_stage_advanced _ _ _

theorem scan_table_stage_advanced (scanner : Scanner) (lexer : TSLexer)
    (valid_symbols : ValidSymbols) :
    Advanced lexer (scan_table_stage scanner lexer valid_symbols).2.2 := by
  simp only [scan_table_stage]
  split_ifs
  · exact advanced_result_symbol (scan_pipe_table_start_advanced lexer) _
  · exact advanced_trans (scan_pipe_table_start_advanced lexer)
      (scan_marker_stage_advanced _ _ _)
  · exact scan_marker_stage_advanced _ _ _

theorem scan_advanced (scanner : Scanner) (lexer : TSLexer) (valid_symbols : ValidSymbols) :
    Advanced lexer
      (tree_sitter_quarto_external_scanner_scan scanner lexer valid_symbols).2.2 := by
  simp only [tree_sitter_quarto_external_scanner_scan]
  split_ifs
  · exact scan_table_stage_advanced _ _ _
  · exact advanced_trans (skip_whitespace_advanced lexer) (scan_table_stage_advanced _ _ _)

/-- The pipe-table recognizer on a text that is one line without terminator: the
line is consumed to the end of the input and the recognizer fails there. -/
theorem scan_pipe_table_start_one_line (line : List Nat)
    (hline : ∀ c ∈ line, c ≠ 10 ∧ c ≠ 13 ∧ c ≠ 0)
    (pos skipped : Nat) (marked : Option Nat) (sym : Option TokenType) :
    scan_pipe_table_start ⟨line, pos, skipped, marked, sym⟩
      = (false, ⟨[], pos + line.length, skipped, marked, sym⟩) := by
  have hloop := skip_line_loop_run line [] hline (by simp) line.length pos skipped marked
    sym (Nat.le_refl _)
  rw [List.append_nil] at hloop
  simp [scan_pipe_table_start, hloop, skip_whitespace_nil]

/-! ## All scans halt -/

/-- C16: all scans halt. Every function of the embedding is total, and the fuel of
its loops is no cut-off: on a finite input, whose end-of-input marker is 0,
each of the four loops, given at least as much fuel as there are code points
left, returns what it returns with exactly that much fuel and stops because its
condition fails (in front of a code point other than a space or tab; at a line
terminator or the end of the input; in front of a code point other than `-`;
other than a backtick). `skip_whitespace`, the three recognizers and the
dispatcher leave the cursor advanced by a number of code points that is at most
the number left; and the pipe-table recognizer on a first line without
terminator consumes the line, stops at the end of the input and fails. -/
theorem all_scans_halt (scanner : Scanner) (lexer : TSLexer) (valid_symbols : ValidSymbols)
    (fuel fence_len : Nat) (has_dash : Bool) (line : List Nat) (pos skipped : Nat)
    (marked : Option Nat) (sym : Option TokenType)
    (hfuel : lexer.input.length ≤ fuel)
    (hline : ∀ c ∈ line, c ≠ 10 ∧ c ≠ 13 ∧ c ≠ 0) :
    (skip_whitespace_loop fuel lexer = skip_whitespace lexer ∧
      lookahead (skip_whitespace lexer) ≠ 32 ∧ lookahead (skip_whitespace lexer) ≠ 9) ∧
    (skip_line_loop fuel lexer = skip_line_loop lexer.input.length lexer ∧
      (lookahead (skip_line_loop lexer.input.length lexer) = 10 ∨
        lookahead (skip_line_loop lexer.input.length lexer) = 13 ∨
        lookahead (skip_line_loop lexer.input.length lexer) = 0)) ∧
    (dash_loop fuel has_dash lexer = dash_loop lexer.input.length has_dash lexer ∧
      lookahead (dash_loop lexer.input.length has_dash lexer).2 ≠ 45) ∧
    (count_backticks fuel fence_len lexer
        = count_backticks lexer.input.length fence_len lexer ∧
      lookahead (count_backticks lexer.input.length fence_len lexer).2 ≠ 96) ∧
    (Advanced lexer (skip_whitespace lexer) ∧
      Advanced lexer (scan_pipe_table_start lexer).2 ∧
      Advanced lexer (scan_chunk_option_marker scanner lexer).2.2 ∧
      Advanced lexer (scan_cell_boundary scanner lexer).2.2 ∧
      Advanced lexer
        (tree_sitter_quarto_external_scanner_scan scanner lexer valid_symbols).2.2) ∧
    scan_pipe_table_start ⟨line, pos, skipped, marked, sym⟩
      = (false, ⟨[], pos + line.length, skipped, marked, sym⟩) := by
  refine ⟨⟨skip_whitespace_loop_fuel fuel lexer hfuel, ?_, ?_⟩,
    ⟨skip_line_loop_fuel fuel lexer hfuel, ?_⟩,
    ⟨dash_loop_fuel fuel has_dash lexer hfuel,
      dash_loop_exit _ has_dash lexer (Nat.le_refl _)⟩,
    ⟨count_backticks_fuel fuel fence_len lexer hfuel,
      count_backticks_exit _ fence_len lexer (Nat.le_refl _)⟩,
    ⟨skip_whitespace_advanced lexer, scan_pipe_table_start_advanced lexer,
      scan_chunk_option_marker_advanced scanner lexer,
      scan_cell_boundary_advanced scanner lexer,
      scan_advanced scanner lexer valid_symbols⟩,
    scan_pipe_table_start_one_line line hline pos skipped marked sym⟩
  · exact fun h => skip_whitespace_loop_exit _ lexer (Nat.le_refl _) (Or.inl h)
  · exact fun h => skip_whitespace_loop_exit _ lexer (Nat.le_refl _) (Or.inr h)
  · have h := skip_line_loop_exit _ lexer (Nat.le_refl _)
    by_cases h10 : lookahead (skip_line_loop lexer.input.length lexer) = 10
    · exact Or.inl h10
    · by_cases h13 : lookahead (skip_line_loop lexer.input.length lexer) = 13
      · exact Or.inr (Or.inl h13)
      · by_cases h0 : lookahead (skip_line_loop lexer.input.length lexer) = 0
        · exact Or.inr (Or.inr h0)
        · exact absurd ⟨h10, h13, h0⟩ h

/-- Witness of C16: a header line without terminator, with more fuel than code
points. -/
theorem all_scans_halt_witness :
    skip_line_loop 100 (lexerOn (codePoints "| a | b"))
      = skip_line_loop (lexerOn (codePoints "| a | b")).input.length
          (lexerOn (codePoints "| a | b")) ∧
    Advanced (lexerOn (codePoints "| a | b"))
      (tree_sitter_quarto_external_scanner_scan tree_sitter_quarto_external_scanner_create
        (lexerOn (codePoints "| a | b")) (validSet true true true)).2.2 ∧
    scan_pipe_table_start ⟨codePoints "| a | b", 0, 0, none, none⟩
      = (false, ⟨[], 0 + (codePoints "| a | b").length, 0, none, none⟩) :=
  have h := all_scans_halt tree_sitter_quarto_external_scanner_create
    (lexerOn (codePoints "| a | b")) (validSet true true true) 100 0 false
    (codePoints "| a | b") 0 0 none none (by decide) (by decide)
  ⟨h.2.1.1, h.2.2.2.2.1.2.2.2.2, h.2.2.2.2.2⟩

/-! ## The pipe-table recognizer as a function of the text -/

theorem skip_whitespace_loop_input (fuel : Nat) :
    ∀ lexer : TSLexer, lexer.input.length ≤ fuel →
      (skip_whitespace_loop fuel lexer).input
        = lexer.input.dropWhile (fun c => c = 32 ∨ c = 9) := by
  induction fuel with
  | zero =>
    intro lexer h
    have : lexer.input = [] := List.length_eq_zero.mp (Nat.le_zero.mp h)
    simp [skip_whitespace_loop, this]
  | succ fuel ih =>
    intro lexer h
    obtain ⟨input, pos, skipped, marked, sym⟩ := lexer
    cases input with
    | nil => simp [skip_whitespace_loop, lookahead, peek]
    | cons c rest =>
      simp only [skip_whitespace_loop, lookahead_mk, peek_cons, advance_cons]
      by_cases hc : c = 32 ∨ c = 9
      · rw [if_pos hc, ih _ (by simpa using h)]
        simp [List.dropWhile_cons, hc]
      · rw [if_neg hc]
        simp [List.dropWhile_cons, hc]

theorem skip_whitespace_input (lexer : TSLexer) :
    (skip_whitespace lexer).input = lexer.input.dropWhile (fun c => c = 32 ∨ c = 9) :=
  skip_whitespace_loop_input _ lexer (Nat.le_refl _)

theorem skip_line_loop_input (fuel : Nat) :
    ∀ lexer : TSLexer, lexer.input.length ≤ fuel →
      (skip_line_loop fuel lexer).input
        = lexer.input.dropWhile (fun c => c ≠ 10 ∧ c ≠ 13 ∧ c ≠ 0) := by
  induction fuel with
  | zero =>
    intro lexer h
    have : lexer.input = [] := List.length_eq_zero.mp (Nat.le_zero.mp h)
    simp [skip_line_loop, this]
  | succ fuel ih =>
    intro lexer h
    obtain ⟨input, pos, skipped, marked, sym⟩ := lexer
    cases input with
    | nil => simp [skip_line_loop, lookahead, peek]
    | cons c rest =>
      simp only [skip_line_loop, lookahead_mk, peek_cons, advance_cons, ite_self]
      by_cases hc : c ≠ 10 ∧ c ≠ 13 ∧ c ≠ 0
      · rw [if_pos hc, ih _ (by simpa using h)]
        simp [List.dropWhile_cons, hc]
      · rw [if_neg hc]
        simp only [List.dropWhile_cons, hc, decide_False, Bool.false_eq_true, if_false]

theorem if_advance_input (lexer : TSLexer) (c : Nat) (hc : c ≠ 0) :
    (if lookahead lexer = c then advance lexer false else lexer).input
      = dropOptional c lexer.input := by
  obtain ⟨input, pos, skipped, marked, sym⟩ := lexer
  cases input with
  | nil => simp [lookahead, peek, dropOptional, Ne.symm hc]
  | cons d rest =>
    simp only [lookahead_mk, peek_cons, advance_cons, dropOptional]
    split <;> rfl

theorem advance_input (lexer : TSLexer) (skip : Bool) :
    (advance lexer skip).input = lexer.input.tail := by
  obtain ⟨input, pos, skipped, marked, sym⟩ := lexer
  cases input <;> rfl

theorem dash_loop_found (fuel : Nat) (has_dash : Bool) (lexer : TSLexer)
    (h : lexer.input.length ≤ fuel) :
    (dash_loop fuel has_dash lexer).1 = (has_dash || decide (peek lexer.input = 45)) := by
  obtain ⟨input, pos, skipped, marked, sym⟩ := lexer
  cases input with
  | nil => cases fuel <;> simp [dash_loop, lookahead, peek]
  | cons c rest =>
    cases fuel with
    | zero => simp at h
    | succ fuel =>
      simp only [dash_loop, lookahead_mk, peek_cons]
      by_cases hc : c = 45
      · rw [if_pos hc, dash_loop_true]
        simp [hc]
      · rw [if_neg hc]
        simp [hc]

/-- The outcome of the pipe-table recognizer computed from the unread text. -/
theorem scan_pipe_table_start_outcome (lexer : TSLexer) :
    (scan_pipe_table_start lexer).1
      = (decide (peek ((dropOptional 10 (dropOptional 13 (lexer.input.dropWhile
            (fun c => c ≠ 10 ∧ c ≠ 13 ∧ c ≠ 0)))).dropWhile (fun c => c = 32 ∨ c = 9)) = 124) &&
          decide (peek (dropOptional 58 (((dropOptional 10 (dropOptional 13
            (lexer.input.dropWhile (fun c => c ≠ 10 ∧ c ≠ 13 ∧ c ≠ 0)))).dropWhile
              (fun c => c = 32 ∨ c = 9)).tail.dropWhile (fun c => c = 32 ∨ c = 9))) = 45)) := by
  simp only [scan_pipe_table_start]
  have e1 := skip_line_loop_input lexer.input.length lexer (Nat.le_refl _)
  generalize skip_line_loop lexer.input.length lexer = l1 at e1 ⊢
  have e2 := if_advance_input l1 13 (by norm_num)
  generalize (if lookahead l1 = 13 then advance l1 false else l1) = l2 at e2 ⊢
  have e3 := if_advance_input l2 10 (by norm_num)
  generalize (if lookahead l2 = 10 then advance l2 false else l2) = l3 at e3 ⊢
  have e4 := skip_whitespace_input l3
  generalize skip_whitespace l3 = l4 at e4 ⊢
  rw [e3, e2, e1] at e4
  rw [← e4]
  have hl4 : lookahead l4 = peek l4.input := rfl
  by_cases h124 : peek l4.input = 124
  · have e5 := skip_whitespace_input (advance l4 false)
    rw [advance_input] at e5
    generalize skip_whitespace (advance l4 false) = l5 at e5 ⊢
    have e6 := if_advance_input l5 58 (by norm_num)
    generalize (if lookahead l5 = 58 then advance l5 false else l5) = l6 at e6 ⊢
    have e7 := dash_loop_found l6.input.length false l6 (Nat.le_refl _)
    simp only [hl4, h124, ne_eq, not_true_eq_false, if_false, e7, Bool.false_or,
      decide_True, Bool.true_and]
    rw [e6, e5]
  · simp only [hl4, h124, ne_eq, not_false_eq_true, if_true, decide_False, Bool.false_and]

theorem dropWhile_line_no_nul (input : List Nat) (h0 : ∀ c ∈ input, c ≠ 0) :
    input.dropWhile (fun c => c ≠ 10 ∧ c ≠ 13 ∧ c ≠ 0)
      = input.dropWhile (fun c => c ≠ 10 ∧ c ≠ 13) := by
  induction input with
  | nil => rfl
  | cons c rest ih =>
    have hc : c ≠ 0 := h0 c (List.mem_cons_self c rest)
    have ih2 := ih (fun d hd => h0 d (List.mem_cons_of_mem c hd))
    simp only [List.dropWhile_cons, hc, ne_eq, not_false_eq_true, and_true, ih2]

theorem textSeen_nil : textSeen [] = [] := rfl

theorem lookahead_same (a b : TSLexer) (h : a.input = b.input) : lookahead a = lookahead b := by
  simp only [lookahead, h]

theorem advance_same (a b : TSLexer) (h : a.input = b.input) (skip : Bool) :
    (advance a skip).input = (advance b skip).input := by
  rw [advance_input, advance_input, h]

theorem skip_whitespace_same (a b : TSLexer) (h : a.input = b.input) :
    (skip_whitespace a).input = (skip_whitespace b).input := by
  rw [skip_whitespace_input, skip_whitespace_input, h]

theorem if_advance_same (a b : TSLexer) (h : a.input = b.input) (c : Nat) :
    (if lookahead a = c then advance a false else a).input
      = (if lookahead b = c then advance b false else b).input := by
  rw [lookahead_same a b h]
  split
  · exact advance_same a b h false
  · exact h

theorem dash_loop_same (fuel : Nat) :
    ∀ (has_dash : Bool) (a b : TSLexer), a.input = b.input →
      (dash_loop fuel has_dash a).1 = (dash_loop fuel has_dash b).1 ∧
      (dash_loop fuel has_dash a).2.input = (dash_loop fuel has_dash b).2.input := by
  induction fuel with
  | zero => intro has_dash a b h; exact ⟨rfl, h⟩
  | succ fuel ih =>
    intro has_dash a b h
    simp only [dash_loop, lookahead_same a b h]
    split
    · exact ih true _ _ (advance_same a b h false)
    · exact ⟨rfl, h⟩

theorem count_backticks_same (fuel : Nat) :
    ∀ (fence_len : Nat) (a b : TSLexer), a.input = b.input →
      (count_backticks fuel fence_len a).1 = (count_backticks fuel fence_len b).1 ∧
      (count_backticks fuel fence_len a).2.input
        = (count_backticks fuel fence_len b).2.input := by
  induction fuel with
  | zero => intro fence_len a b h; exact ⟨rfl, h⟩
  | succ fuel ih =>
    intro fence_len a b h
    simp only [count_backticks, lookahead_same a b h]
    split
    · exact ih _ _ _ (advance_same a b h false)
    · exact ⟨rfl, h⟩

theorem scan_pipe_table_start_same (a b : TSLexer) (h : a.input = b.input) :
    (scan_pipe_table_start a).1 = (scan_pipe_table_start b).1 ∧
    (scan_pipe_table_start a).2.input = (scan_pipe_table_start b).2.input := by
  refine ⟨by rw [scan_pipe_table_start_outcome, scan_pipe_table_start_outcome, h], ?_⟩
  simp only [scan_pipe_table_start]
  have e1 : (skip_line_loop a.input.length a).input = (skip_line_loop b.input.length b).input := by
    rw [skip_line_loop_input _ a (Nat.le_refl _), skip_line_loop_input _ b (Nat.le_refl _), h]
  generalize skip_line_loop a.input.length a = a1 at e1 ⊢
  generalize skip_line_loop b.input.length b = b1 at e1 ⊢
  have e2 := if_advance_same a1 b1 e1 13
  generalize (if lookahead a1 = 13 then advance a1 false else a1) = a2 at e2 ⊢
  generalize (if lookahead b1 = 13 then advance b1 false else b1) = b2 at e2 ⊢
  have e3 := if_advance_same a2 b2 e2 10
  generalize (if lookahead a2 = 10 then advance a2 false else a2) = a3 at e3 ⊢
  generalize (if lookahead b2 = 10 then advance b2 false else b2) = b3 at e3 ⊢
  have e4 := skip_whitespace_same a3 b3 e3
  generalize skip_whitespace a3 = a4 at e4 ⊢
  generalize skip_whitespace b3 = b4 at e4 ⊢
  rw [lookahead_same a4 b4 e4]
  split
  · exact e4
  · have e5 := skip_whitespace_same _ _ (advance_same a4 b4 e4 false)
    generalize skip_whitespace (advance a4 false) = a5 at e5 ⊢
    generalize skip_whitespace (advance b4 false) = b5 at e5 ⊢
    have e6 := if_advance_same a5 b5 e5 58
    generalize (if lookahead a5 = 58 then advance a5 false else a5) = a6 at e6 ⊢
    generalize (if lookahead b5 = 58 then advance b5 false else b5) = b6 at e6 ⊢
    have e7 := (dash_loop_same a6.input.length false a6 b6 e6).2
    rw [e6] at e7 ⊢
    generalize dash_loop b6.input.length false a6 = da at e7 ⊢
    generalize dash_loop b6.input.length false b6 = db at e7 ⊢
    exact if_advance_same da.2 db.2 e7 58

theorem scan_chunk_option_marker_same (scanner : Scanner) (a b : TSLexer)
    (h : a.input = b.input) :
    (scan_chunk_option_marker scanner a).1 = (scan_chunk_option_marker scanner b).1 ∧
    (scan_chunk_option_marker scanner a).2.2.input
      = (scan_chunk_option_marker scanner b).2.2.input := by
  have h1 := advance_same a b h false
  have h2 := advance_same _ _ h1 false
  have h3 := skip_whitespace_same _ _ h2
  simp only [scan_chunk_option_marker, lookahead_same a b h, lookahead_same _ _ h1]
  split_ifs
  · exact ⟨rfl, h⟩
  · exact ⟨rfl, h3⟩
  · exact ⟨rfl, h1⟩
  · exact ⟨rfl, h⟩

theorem scan_cell_boundary_same (scanner : Scanner) (a b : TSLexer) (h : a.input = b.input) :
    (scan_cell_boundary scanner a).1 = (scan_cell_boundary scanner b).1 ∧
    (scan_cell_boundary scanner a).2.1 = (scan_cell_boundary scanner b).2.1 ∧
    (scan_cell_boundary scanner a).2.2.input = (scan_cell_boundary scanner b).2.2.input := by
  have hc := count_backticks_same a.input.length 0 a b h
  simp only [scan_cell_boundary]
  rw [← h]
  generalize count_backticks a.input.length 0 a = ra at hc ⊢
  generalize count_backticks a.input.length 0 b = rb at hc ⊢
  obtain ⟨ka, la⟩ := ra
  obtain ⟨kb, lb⟩ := rb
  simp only at hc ⊢
  obtain ⟨hk, hl⟩ := hc
  subst hk
  have h1 := skip_whitespace_same la lb hl
  have h2 := skip_whitespace_same _ _ h1
  rw [lookahead_same _ _ h1, lookahead_same _ _ h2]
  split_ifs
  · exact ⟨rfl, rfl, hl⟩
  · exact ⟨rfl, rfl, h1⟩
  · exact ⟨rfl, rfl, h2⟩
  · exact ⟨rfl, rfl, h2⟩
  · exact ⟨rfl, rfl, h2⟩

theorem scan_boundary_stage_same (scanner : Scanner) (a b : TSLexer)
    (valid_symbols : ValidSymbols) (h : a.input = b.input) :
    SameOutcome (scan_boundary_stage scanner a valid_symbols)
      (scan_boundary_stage scanner b valid_symbols) := by
  obtain ⟨h1, h2, h3⟩ := scan_cell_boundary_same scanner a b h
  simp only [scan_boundary_stage, h1]
  split_ifs
  · exact ⟨rfl, h2, rfl, h3⟩
  · exact ⟨rfl, h2, rfl, h3⟩
  · exact ⟨rfl, rfl, rfl, h⟩

theorem scan_marker_stage_same (scanner : Scanner) (a b : TSLexer)
    (valid_symbols : ValidSymbols) (h : a.input = b.input) :
    SameOutcome (scan_marker_stage scanner a valid_symbols)
      (scan_marker_stage scanner b valid_symbols) := by
  obtain ⟨h1, h2⟩ := scan_chunk_option_marker_same scanner a b h
  simp only [scan_marker_stage, h1, scan_chunk_option_marker_state]
  split_ifs
  · exact ⟨rfl, rfl, rfl, h2⟩
  · exact scan_boundary_stage_same _ _ _ _ h2
  · exact scan_boundary_stage_same _ _ _ _ h

theorem scan_table_stage_same (scanner : Scanner) (a b : TSLexer)
    (valid_symbols : ValidSymbols) (h : a.input = b.input) :
    SameOutcome (scan_table_stage scanner a valid_symbols)
      (scan_table_stage scanner b valid_symbols) := by
  obtain ⟨h1, h2⟩ := scan_pipe_table_start_same a b h
  simp only [scan_table_stage, h1]
  split_ifs
  · exact ⟨rfl, rfl, rfl, h2⟩
  · exact scan_marker_stage_same _ _ _ _ h2
  · exact scan_marker_stage_same _ _ _ _ h

/-! ## Leading-whitespace policy -/

/-- C15: leading-whitespace policy. When `CHUNK_OPTION_MARKER` is not a candidate
the dispatcher runs its blocks on the cursor behind the leading spaces and
tabs, and a call on a text reports the same kind and leaves the same state as
a call on the text with its leading run of spaces and tabs removed, wherever
the two cursors stand. When `CHUNK_OPTION_MARKER` is a candidate the blocks run
on the cursor as it is; with `PIPE_TABLE_START` not a candidate, a call on a
text that begins with a space or a tab then reports failure, nothing being
consumed. -/
theorem whitespace_policy (scanner : Scanner) (lexer removed indented : TSLexer)
    (table boundary : Bool)
    (hremoved : removed.input = lexer.input.dropWhile (fun c => c = 32 ∨ c = 9))
    (hindented : lookahead indented = 32 ∨ lookahead indented = 9) :
    (tree_sitter_quarto_external_scanner_scan scanner lexer (validSet table false boundary)
        = scan_table_stage scanner (skip_whitespace lexer) (validSet table false boundary) ∧
      tree_sitter_quarto_external_scanner_scan scanner lexer (validSet table true boundary)
        = scan_table_stage scanner lexer (validSet table true boundary)) ∧
    SameOutcome
      (tree_sitter_quarto_external_scanner_scan scanner lexer (validSet table false boundary))
      (tree_sitter_quarto_external_scanner_scan scanner removed
        (validSet table false boundary)) ∧
    tree_sitter_quarto_external_scanner_scan scanner indented (validSet false true boundary)
      = (false, { scanner with at_cell_start := false }, indented) := by
  refine ⟨⟨rfl, rfl⟩, ?_, ?_⟩
  · have hsame : (skip_whitespace lexer).input = (skip_whitespace removed).input := by
      rw [skip_whitespace_input, skip_whitespace_input, hremoved, List.dropWhile_idempotent]
    exact scan_table_stage_same scanner _ _ _ hsame
  · have h35 : lookahead indented ≠ 35 := by
      rcases hindented with h | h <;> simp [h]
    have h96 : lookahead indented ≠ 96 := by
      rcases hindented with h | h <;> simp [h]
    rw [scan_marker_miss scanner indented boundary h35]
    simp only [scan_boundary_stage, scan_cell_boundary_no_backtick _ indented h96,
      Bool.false_eq_true, if_false, ite_self]

/-- Witness of C15: an indented fence is opened when `CELL_BOUNDARY` is the only
candidate, as the fence without indentation is, and is not when
`CHUNK_OPTION_MARKER` is a candidate too. -/
theorem whitespace_policy_witness :
    SameOutcome
      (tree_sitter_quarto_external_scanner_scan tree_sitter_quarto_external_scanner_create
        (lexerOn (codePoints "  ```{r}")) (validSet false false true))
      (tree_sitter_quarto_external_scanner_scan tree_sitter_quarto_external_scanner_create
        (lexerOn (codePoints "```{r}")) (validSet false false true)) ∧
    tree_sitter_quarto_external_scanner_scan tree_sitter_quarto_external_scanner_create
        (lexerOn (codePoints "  ```{r}")) (validSet false true true)
      = (false, tree_sitter_quarto_external_scanner_create,
          lexerOn (codePoints "  ```{r}")) :=
  (whitespace_policy tree_sitter_quarto_external_scanner_create
    (lexerOn (codePoints "  ```{r}")) (lexerOn (codePoints "```{r}"))
    (lexerOn (codePoints "  ```{r}")) false true (by decide) (by decide)).2

/-! ## End-to-end session -/

end Quarto
